import Mathlib

/-!
Shallow embedding of the Vector-Whiteboard relay server (`src/server.js`).

The repository file contains two complete server variants:
* the "simple" variant (first part of the file): rooms hold a single
  optional professor socket id, a set of student socket ids, a `history`
  array and a cached `userCount`;
* the "robust" variant (last part of the file): rooms hold a map of up to
  3 professors, a map of up to 100 students, a `commands` array and
  metadata, with a 30-second grace period before deleting emptied rooms.

Both variants are embedded below (`...A` names for the simple variant,
`...B` names for the robust variant).  Handlers are modelled as pure
functions from an input event and a server state to the new state plus
the ordered list of socket emissions the handler performs.  `Date.now()`
is passed in as an explicit `now : Nat` parameter, and the random room
key generator of the robust variant as an explicit `genKey` parameter.
Purely observational data (console logging, the debug session log, user
agent / mobile detection fields) is not modelled; numeric path
coordinates, colors and stroke widths are opaque transported data and
are modelled with `Int` / `String` / `Nat`.
-/

/-- Association-list model of a JS `Map`: lookup (`Map.get`). -/
def mapGet {V : Type} (k : String) : List (String × V) → Option V
  | [] => none
  | (k', v) :: rest => if k' = k then some v else mapGet k rest

/-- Association-list model of a JS `Map`: `Map.set` replaces an existing
binding in place, otherwise appends (insertion order preserved). -/
def mapSet {V : Type} (k : String) (v : V) : List (String × V) → List (String × V)
  | [] => [(k, v)]
  | (k', v') :: rest => if k' = k then (k, v) :: rest else (k', v') :: mapSet k v rest

/-- Association-list model of a JS `Map`: `Map.delete`. -/
def mapDelete {V : Type} (k : String) : List (String × V) → List (String × V)
  | [] => []
  | (k', v') :: rest => if k' = k then rest else (k', v') :: mapDelete k rest

/-- JS `Set.add`: insertion-ordered, no duplicates. -/
def setAdd (x : String) (l : List String) : List String :=
  if x ∈ l then l else l ++ [x]

/-- JS `Set.delete`. -/
def setDelete (x : String) (l : List String) : List String :=
  l.filter (fun y => y ≠ x)

/-- JS truthiness of an optional string (`undefined` and `""` are falsy). -/
def truthy : Option String → Bool
  | none => false
  | some s => s ≠ ""

/-- JS `String.prototype.trim()`: strip whitespace from both ends
(modelled structurally over the character list so that it is
kernel-computable). -/
def jsTrim (s : String) : String :=
  ⟨((s.data.dropWhile Char.isWhitespace).reverse.dropWhile Char.isWhitespace).reverse⟩

/-- JS `String.prototype.toUpperCase()` (basic latin, as `Char.toUpper`),
modelled structurally over the character list. -/
def jsToUpper (s : String) : String :=
  ⟨s.data.map Char.toUpper⟩

/-- JS `String.prototype.substring(0, n)`, modelled structurally. -/
def jsSubstr (s : String) (n : Nat) : String :=
  ⟨s.data.take n⟩

/-- A 2D point of a stroke path (coordinates are opaque transported data). -/
abbrev Point : Type := Int × Int

/-- Broadcast target of one socket emission. -/
inductive Target
  | toSender
  | toRoomExceptSender (roomKey : String)
  | toRoom (roomKey : String)
deriving DecidableEq, Repr

/-- Socket.IO channel membership: sockets currently joined to each room
channel (`socket.join` adds the socket id; a disconnecting socket has
left every channel before its `disconnect` handler runs). -/
def channelJoin (roomKey sid : String) (chans : List (String × List String)) :
    List (String × List String) :=
  match mapGet roomKey chans with
  | none => mapSet roomKey [sid] chans
  | some members => mapSet roomKey (setAdd sid members) chans

/-- Remove a socket id from every channel (socket.io on disconnect). -/
def channelLeaveAll (sid : String) (chans : List (String × List String)) :
    List (String × List String) :=
  chans.map (fun p => (p.1, setDelete sid p.2))

/-- Sockets subscribed to a room channel. -/
def channelMembers (roomKey : String) (chans : List (String × List String)) :
    List String :=
  (mapGet roomKey chans).getD []

/-- Broadcast Dispatcher semantics: the socket ids a single emission is
delivered to, resolved against channel membership at call time.
`socket.emit` reaches only the sender; `io.to(key)` reaches every
channel member; `socket.to(key)` / `socket.broadcast.to(key)` reaches
every channel member except the sender. -/
def recipients (chans : List (String × List String)) (sender : String) :
    Target → List String
  | .toSender => [sender]
  | .toRoom k => channelMembers k chans
  | .toRoomExceptSender k => (channelMembers k chans).filter (fun r => r ≠ sender)

/-! ### Simple variant (first server in `src/server.js`) -/

/-- A recorded draw command of the simple variant. -/
structure DrawCommandA where
  type : String
  path : List Point
  color : String
  width : Nat
  timestamp : Nat
  userId : String
  professorName : String
deriving DecidableEq, Repr

/-- A room of the simple variant:
`{ professor: socketId|null, students: Set, history: [], userCount }`. -/
structure RoomA where
  professor : Option String
  students : List String
  history : List DrawCommandA
  userCount : Nat
  createdAt : Nat
  createdBy : String
deriving DecidableEq, Repr

/-- A user session (`userSessions` entry). -/
structure SessionA where
  role : String
  name : String
  roomKey : String
  userId : String
  joinedAt : Nat
deriving DecidableEq, Repr

/-- One socket emission payload of the simple variant. -/
inductive PayloadA
  | ack
  | roomError (code message : String)
  | permissionDenied (code message : String)
  | roomJoined (success : Bool) (roomKey : String) (userCount : Nat) (role : String)
  | roomHistory (commands : List DrawCommandA)
  | draw (c : DrawCommandA)
  | canvasCleared (clearedBy : String)
  | userListUpdate (total : Nat) (professor : Option String) (students : List String)
  | professorJoined (name : String)
  | professorDisconnected (name : String)
deriving DecidableEq, Repr

/-- One socket emission of the simple variant. -/
structure EmitA where
  target : Target
  event : String
  payload : PayloadA
deriving DecidableEq, Repr

/-- Whole-process state of the simple variant. -/
structure StateA where
  rooms : List (String × RoomA)
  userSessions : List (String × SessionA)
  channels : List (String × List String)
deriving DecidableEq, Repr

/-- Payload of `join-room-as-professor` (simple variant). -/
structure JoinProfDataA where
  professorName : Option String
  roomKey : Option String
  createIfNotExists : Bool
deriving DecidableEq, Repr

/-- Payload of `join-room-as-student` (simple variant). -/
structure JoinStudDataA where
  studentName : Option String
  roomKey : Option String
deriving DecidableEq, Repr

/-- Payload of `draw-command` (simple variant): `{ path, color, width }`,
each possibly absent. -/
structure DrawDataA where
  path : Option (List Point)
  color : Option String
  width : Option Nat
deriving DecidableEq, Repr

/-- JS `x || dflt` for an optional string (empty string is falsy). -/
def jsOrStr (o : Option String) (dflt : String) : String :=
  match o with
  | none => dflt
  | some s => if s = "" then dflt else s

/-- JS `x || dflt` for an optional number (0 is falsy). -/
def jsOrNat (o : Option Nat) (dflt : Nat) : Nat :=
  match o with
  | none => dflt
  | some n => if n = 0 then dflt else n

/-- Student display names for the `user-list-update` payload:
`Array.from(room.students).map(...)` looking each id up in `userSessions`. -/
def studentNamesA (students : List String) (sessions : List (String × SessionA)) :
    List String :=
  students.map (fun sidS => ((mapGet sidS sessions).map SessionA.name).getD "Unknown Student")

/-- Handler `socket.on('join-room-as-professor')` of the simple variant. -/
def joinProfA (now : Nat) (sid : String) (d : JoinProfDataA) (st : StateA) :
    StateA × List EmitA :=
  let ack : EmitA := ⟨.toSender, "join-attempt-received", .ack⟩
  if truthy d.professorName = false ∨ truthy d.roomKey = false then
    (st, [ack, ⟨.toSender, "room-error",
      .roomError "MISSING_DATA" "Professor name and room key are required"⟩])
  else
    let professorName := jsTrim (d.professorName.getD "")
    let roomKey := jsToUpper (jsTrim (d.roomKey.getD ""))
    if professorName.length < 1 ∨ professorName.length > 50 then
      (st, [ack, ⟨.toSender, "room-error",
        .roomError "INVALID_NAME" "Professor name must be 1-50 characters"⟩])
    else if roomKey.length < 3 ∨ roomKey.length > 20 then
      (st, [ack, ⟨.toSender, "room-error",
        .roomError "INVALID_ROOM_KEY" "Room key must be 3-20 characters"⟩])
    else
      let afterRoom : Option (List (String × RoomA)) :=
        match mapGet roomKey st.rooms with
        | none =>
          if d.createIfNotExists then
            some (mapSet roomKey
              ⟨some sid, [], [], 1, now, professorName⟩ st.rooms)
          else none
        | some room =>
          if room.professor ≠ none ∧ room.professor ≠ some sid then none
          else
            some (mapSet roomKey
              { room with professor := some sid,
                          userCount := 1 + room.students.length } st.rooms)
      match afterRoom with
      | none =>
        match mapGet roomKey st.rooms with
        | none =>
          (st, [ack, ⟨.toSender, "room-error",
            .roomError "ROOM_NOT_FOUND" "Room does not exist"⟩])
        | some _ =>
          (st, [ack, ⟨.toSender, "room-error",
            .roomError "PROFESSOR_EXISTS" "Another professor is already in this room"⟩])
      | some rooms' =>
        let channels' := channelJoin roomKey sid st.channels
        let session : SessionA :=
          ⟨"professor", jsTrim professorName, roomKey, sid, now⟩
        let sessions' := mapSet sid session st.userSessions
        let room := (mapGet roomKey rooms').getD ⟨none, [], [], 0, 0, ""⟩
        let es₀ : List EmitA :=
          [ack, ⟨.toSender, "room-joined",
            .roomJoined true roomKey room.userCount "professor"⟩]
        let es₁ : List EmitA :=
          if room.history.length > 0
          then es₀ ++ [⟨.toSender, "room-history", .roomHistory room.history⟩]
          else es₀
        let es₂ := es₁ ++
          [⟨.toRoomExceptSender roomKey, "professor-joined",
             .professorJoined professorName⟩,
           ⟨.toRoom roomKey, "user-list-update",
             .userListUpdate room.userCount (some professorName)
               (studentNamesA room.students sessions')⟩]
        (⟨rooms', sessions', channels'⟩, es₂)

/-- Handler `socket.on('join-room-as-student')` of the simple variant. -/
def joinStudA (now : Nat) (sid : String) (d : JoinStudDataA) (st : StateA) :
    StateA × List EmitA :=
  let ack : EmitA := ⟨.toSender, "join-attempt-received", .ack⟩
  if truthy d.studentName = false ∨ truthy d.roomKey = false then
    (st, [ack, ⟨.toSender, "room-error",
      .roomError "MISSING_DATA" "Student name and room key are required"⟩])
  else
    let studentName := jsTrim (d.studentName.getD "")
    let roomKey := jsToUpper (jsTrim (d.roomKey.getD ""))
    if studentName.length < 1 ∨ studentName.length > 50 then
      (st, [ack, ⟨.toSender, "room-error",
        .roomError "INVALID_NAME" "Student name must be 1-50 characters"⟩])
    else
      match mapGet roomKey st.rooms with
      | none =>
        (st, [ack, ⟨.toSender, "room-error",
          .roomError "ROOM_NOT_FOUND" "Room does not exist"⟩])
      | some room =>
        if room.userCount ≥ 100 then
          (st, [ack, ⟨.toSender, "room-error",
            .roomError "ROOM_FULL" "Room is at maximum capacity"⟩])
        else
          let channels' := channelJoin roomKey sid st.channels
          let students' := setAdd sid room.students
          let room' : RoomA :=
            { room with students := students', userCount := 1 + students'.length }
          let rooms' := mapSet roomKey room' st.rooms
          let session : SessionA := ⟨"student", jsTrim studentName, roomKey, sid, now⟩
          let sessions' := mapSet sid session st.userSessions
          let professorName :=
            ((room'.professor.bind (fun p => mapGet p sessions')).map
              SessionA.name).getD "Unknown Professor"
          let es₀ : List EmitA :=
            [ack, ⟨.toSender, "room-joined",
              .roomJoined true roomKey room'.userCount "student"⟩]
          let es₁ :=
            if room'.history.length > 0
            then es₀ ++ [⟨.toSender, "room-history", .roomHistory room'.history⟩]
            else es₀
          let es₂ := es₁ ++
            [⟨.toRoom roomKey, "user-list-update",
              .userListUpdate room'.userCount (some professorName)
                (studentNamesA students' sessions')⟩]
          (⟨rooms', sessions', channels'⟩, es₂)

/-- Truncation `room.history.slice(-500)` applied when the pushed history exceeds
1000 entries (simple variant). -/
def trimHistoryA (h : List DrawCommandA) : List DrawCommandA :=
  if h.length > 1000 then h.drop (h.length - 500) else h

/-- Handler `socket.on('draw-command')` of the simple variant. -/
def drawA (now : Nat) (sid : String) (d : DrawDataA) (st : StateA) :
    StateA × List EmitA :=
  match mapGet sid st.userSessions with
  | none =>
    (st, [⟨.toSender, "permission-denied",
      .permissionDenied "SESSION_NOT_FOUND" "User session not found"⟩])
  | some s =>
    if s.role ≠ "professor" then
      (st, [⟨.toSender, "permission-denied",
        .permissionDenied "INSUFFICIENT_PERMISSIONS" "Only professors can draw"⟩])
    else
      let roomKey := s.roomKey
      match mapGet roomKey st.rooms with
      | none =>
        (st, [⟨.toSender, "permission-denied",
          .permissionDenied "ROOM_NOT_FOUND" "Room not found"⟩])
      | some room =>
        match d.path with
        | none => (st, [])
        | some ps =>
          if ps.length = 0 then (st, [])
          else
            let drawCommand : DrawCommandA :=
              ⟨"draw", ps, jsOrStr d.color "#2563eb", jsOrNat d.width 2,
                now, sid, s.name⟩
            let history' := trimHistoryA (room.history ++ [drawCommand])
            let rooms' := mapSet roomKey { room with history := history' } st.rooms
            (⟨rooms', st.userSessions, st.channels⟩,
             [⟨.toRoomExceptSender roomKey, "draw-command", .draw drawCommand⟩])

/-- Handler `socket.on('clear-canvas')` of the simple variant. -/
def clearA (_now : Nat) (sid : String) (st : StateA) : StateA × List EmitA :=
  match mapGet sid st.userSessions with
  | none =>
    (st, [⟨.toSender, "permission-denied",
      .permissionDenied "SESSION_NOT_FOUND" "User session not found"⟩])
  | some s =>
    if s.role ≠ "professor" then
      (st, [⟨.toSender, "permission-denied",
        .permissionDenied "INSUFFICIENT_PERMISSIONS" "Only professors can clear the canvas"⟩])
    else
      match mapGet s.roomKey st.rooms with
      | none => (st, [])
      | some room =>
        let rooms' := mapSet s.roomKey { room with history := [] } st.rooms
        (⟨rooms', st.userSessions, st.channels⟩,
         [⟨.toRoom s.roomKey, "canvas-cleared",
           .canvasCleared s.name⟩])

/-- Handler `socket.on('disconnect')` of the simple variant.  The disconnecting
socket has already left all channels when the handler runs; the room is
deleted immediately once it has no remaining occupants. -/
def disconnectA (sid : String) (st : StateA) : StateA × List EmitA :=
  let chans := channelLeaveAll sid st.channels
  match mapGet sid st.userSessions with
  | none => (⟨st.rooms, st.userSessions, chans⟩, [])
  | some s =>
    let roomKey := s.roomKey
    match mapGet roomKey st.rooms with
    | none =>
      (⟨st.rooms, mapDelete sid st.userSessions, chans⟩, [])
    | some room =>
      let step : List (String × RoomA) × List EmitA :=
        if s.role = "professor" then
          let room' : RoomA :=
            { room with professor := none, userCount := room.students.length }
          let rooms' :=
            if room.students.length = 0
            then mapDelete roomKey st.rooms
            else mapSet roomKey room' st.rooms
          (rooms',
           [⟨.toRoomExceptSender roomKey, "professor-disconnected",
             .professorDisconnected s.name⟩])
        else if s.role = "student" then
          let students' := setDelete sid room.students
          let room' : RoomA :=
            { room with students := students',
                        userCount := (if room.professor.isSome then 1 else 0) +
                          students'.length }
          let rooms' :=
            if room.professor = none ∧ students'.length = 0
            then mapDelete roomKey st.rooms
            else mapSet roomKey room' st.rooms
          (rooms', [])
        else (st.rooms, [])
      let rooms' := step.1
      let es :=
        match mapGet roomKey rooms' with
        | none => step.2
        | some updatedRoom =>
          step.2 ++
            [⟨.toRoom roomKey, "user-list-update",
              .userListUpdate updatedRoom.userCount
                ((updatedRoom.professor.bind
                  (fun p => mapGet p st.userSessions)).map SessionA.name)
                (studentNamesA updatedRoom.students st.userSessions)⟩]
      (⟨rooms', mapDelete sid st.userSessions, chans⟩, es)

/-! ### Robust variant (last server in `src/server.js`) -/

/-- A room member record of the robust variant (value of the per-room
`professors` / `students` maps). -/
structure MemberB where
  name : String
  socketId : String
  joinedAt : Nat
  role : String
deriving DecidableEq, Repr

/-- Inbound drawing command of the robust variant
(`data.command = { type, path, ... }`; `color`/`width` are opaque
pass-through style fields). -/
structure CmdInB where
  type : String
  path : Option (List Point)
  color : String
  width : Nat
deriving DecidableEq, Repr

/-- Enriched drawing command as stored and broadcast by the robust
variant: the inbound command spread together with server-assigned
attribution. -/
structure EnrichedB where
  type : String
  path : List Point
  color : String
  width : Nat
  professorId : String
  professorName : String
  timestamp : Nat
  roomKey : String
deriving DecidableEq, Repr

/-- Room metadata of the robust variant. -/
structure RoomMetaB where
  createdAt : Nat
  lastActivity : Nat
  createdByName : String
  createdBySocket : String
  roomKey : String
deriving DecidableEq, Repr

/-- A room of the robust variant:
`{ professors: Map, students: Map, commands: [], metadata }`. -/
structure RoomB where
  professors : List (String × MemberB)
  students : List (String × MemberB)
  commands : List EnrichedB
  metadata : RoomMetaB
deriving DecidableEq, Repr

/-- A user session of the robust variant. -/
structure SessionB where
  role : String
  name : String
  roomKey : String
  userId : String
deriving DecidableEq, Repr

/-- One socket emission payload of the robust variant. -/
inductive PayloadB
  | roomError (code message : String)
  | permissionDenied (message : String)
  | roomJoined (roomKey role userName : String) (userCount profCount studCount : Nat)
  | roomHistory (commands : List EnrichedB) (count : Nat)
  | draw (c : EnrichedB)
  | canvasCleared (professorId professorName : String)
  | userListUpdate (professors students : List String) (total : Nat)
  | pong
deriving DecidableEq, Repr

/-- One socket emission of the robust variant. -/
structure EmitB where
  target : Target
  event : String
  payload : PayloadB
deriving DecidableEq, Repr

/-- Whole-process state of the robust variant.  `pending` records the
room keys whose empty-room deletion timer (30 s `setTimeout`) has been
scheduled and has not fired yet. -/
structure StateB where
  rooms : List (String × RoomB)
  userSessions : List (String × SessionB)
  channels : List (String × List String)
  pending : List String
deriving DecidableEq, Repr

/-- A room-key character accepted by `/^[A-Z0-9]+$/`. -/
def isKeyChar (c : Char) : Bool :=
  ('A' ≤ c && c ≤ 'Z') || ('0' ≤ c && c ≤ '9')

/-- Validator `validateRoomKey(key)` of the robust variant: falsy / non-string
keys are invalid; otherwise the trimmed, uppercased key must be 3–20
characters and alphanumeric. -/
def validateRoomKey : Option String → Bool
  | none => false
  | some k =>
    if k = "" then false
    else
      let cleanKey := jsToUpper (jsTrim k)
      decide (cleanKey.length ≥ 3) && decide (cleanKey.length ≤ 20) &&
        cleanKey.data.all isKeyChar

/-- Occupancy statistics of a room (`getRoomStats`): professors,
students, and their total; `roomExists` is the source's `exists` flag. -/
structure RoomStatsB where
  profCount : Nat
  studCount : Nat
  total : Nat
  roomExists : Bool
deriving DecidableEq, Repr

/-- Function `getRoomStats(roomKey)` of the robust variant. -/
def getRoomStats (roomKey : String) (rooms : List (String × RoomB)) : RoomStatsB :=
  match mapGet roomKey rooms with
  | none => ⟨0, 0, 0, false⟩
  | some room =>
    ⟨room.professors.length, room.students.length,
     room.professors.length + room.students.length, true⟩

/-- Function `createRoom(roomKey, creatorInfo)` of the robust variant. -/
def createRoom (now : Nat) (roomKey : String) (creatorName creatorSocket : String)
    (rooms : List (String × RoomB)) : List (String × RoomB) :=
  let normalizedKey := jsToUpper roomKey
  mapSet normalizedKey
    ⟨[], [], [], ⟨now, now, creatorName, creatorSocket, normalizedKey⟩⟩ rooms

/-- Payload of `join-room-as-professor` (robust variant);
`createIfNotExists` defaults to `true` at the destructuring site. -/
structure JoinProfDataB where
  roomKey : Option String
  professorName : Option String
  createIfNotExists : Bool
deriving DecidableEq, Repr

/-- Payload of `join-room-as-student` (robust variant). -/
structure JoinStudDataB where
  roomKey : Option String
  studentName : Option String
deriving DecidableEq, Repr

/-- Member display names for `user-list-update` payloads
(`Array.from(map.values()).map(u => u.name)`). -/
def memberNamesB (members : List (String × MemberB)) : List String :=
  members.map (fun p => p.2.name)

/-- Handler `socket.on('join-room-as-professor')` of the robust variant.
`genKey` stands for the `generateRoomKey()` random draw. -/
def joinProfB (now : Nat) (genKey : String) (sid : String) (d : JoinProfDataB)
    (st : StateB) : StateB × List EmitB :=
  if truthy d.professorName = false ∨ (jsTrim (d.professorName.getD "")).length = 0 then
    (st, [⟨.toSender, "room-error", .roomError "INVALID_NAME" "Professor name is required"⟩])
  else
    let professorName := d.professorName.getD ""
    let roomKey0 : Option String :=
      if truthy d.roomKey = false ∧ d.createIfNotExists then some genKey else d.roomKey
    if validateRoomKey roomKey0 = false then
      (st, [⟨.toSender, "room-error",
        .roomError "INVALID_ROOM_KEY" "Invalid room key. Must be 3-20 alphanumeric characters."⟩])
    else
      let normalizedRoomKey := jsToUpper (roomKey0.getD "")
      let roomsCreated : Option (List (String × RoomB)) :=
        match mapGet normalizedRoomKey st.rooms with
        | none =>
          if d.createIfNotExists
          then some (createRoom now normalizedRoomKey professorName sid st.rooms)
          else none
        | some _ => some st.rooms
      match roomsCreated with
      | none =>
        (st, [⟨.toSender, "room-error", .roomError "ROOM_NOT_FOUND" "Room does not exist"⟩])
      | some rooms₀ =>
        match mapGet normalizedRoomKey rooms₀ with
        | none => (st, [])
        | some room =>
          if room.professors.length ≥ 3 then
            (st, [⟨.toSender, "room-error",
              .roomError "PROFESSOR_LIMIT_REACHED" "Room has reached maximum professor limit"⟩])
          else
            let channels' := channelJoin normalizedRoomKey sid st.channels
            let room' : RoomB :=
              { room with
                  professors := mapSet sid
                    ⟨jsTrim professorName, sid, now, "professor"⟩ room.professors,
                  metadata := { room.metadata with lastActivity := now } }
            let rooms' := mapSet normalizedRoomKey room' rooms₀
            let sessions' := mapSet sid
              (⟨"professor", jsTrim professorName, normalizedRoomKey, sid⟩ : SessionB)
              st.userSessions
            let stats := getRoomStats normalizedRoomKey rooms'
            let es₀ : List EmitB :=
              [⟨.toSender, "room-joined",
                .roomJoined normalizedRoomKey "professor" (jsTrim professorName)
                  stats.total stats.profCount stats.studCount⟩]
            let es₁ :=
              if room'.commands.length > 0
              then es₀ ++ [⟨.toSender, "room-history",
                .roomHistory room'.commands room'.commands.length⟩]
              else es₀
            let es₂ := es₁ ++
              [⟨.toRoom normalizedRoomKey, "user-list-update",
                .userListUpdate (memberNamesB room'.professors)
                  (memberNamesB room'.students)
                  (room'.professors.length + room'.students.length)⟩]
            (⟨rooms', sessions', channels', st.pending⟩, es₂)

/-- Handler `socket.on('join-room-as-student')` of the robust variant. -/
def joinStudB (now : Nat) (sid : String) (d : JoinStudDataB) (st : StateB) :
    StateB × List EmitB :=
  if truthy d.studentName = false ∨ (jsTrim (d.studentName.getD "")).length = 0 then
    (st, [⟨.toSender, "room-error", .roomError "INVALID_NAME" "Student name is required"⟩])
  else
    let studentName := d.studentName.getD ""
    if validateRoomKey d.roomKey = false then
      (st, [⟨.toSender, "room-error",
        .roomError "INVALID_ROOM_KEY" "Invalid room key format"⟩])
    else
      let normalizedRoomKey := jsToUpper (d.roomKey.getD "")
      match mapGet normalizedRoomKey st.rooms with
      | none =>
        (st, [⟨.toSender, "room-error", .roomError "ROOM_NOT_FOUND" "Room does not exist"⟩])
      | some room =>
        if room.professors.length = 0 then
          (st, [⟨.toSender, "room-error",
            .roomError "NO_PROFESSOR" "No professor available in this room"⟩])
        else if room.students.length ≥ 100 then
          (st, [⟨.toSender, "room-error",
            .roomError "STUDENT_LIMIT_REACHED" "Room has reached maximum student capacity"⟩])
        else
          let channels' := channelJoin normalizedRoomKey sid st.channels
          let room' : RoomB :=
            { room with
                students := mapSet sid
                  ⟨jsTrim studentName, sid, now, "student"⟩ room.students,
                metadata := { room.metadata with lastActivity := now } }
          let rooms' := mapSet normalizedRoomKey room' st.rooms
          let sessions' := mapSet sid
            (⟨"student", jsTrim studentName, normalizedRoomKey, sid⟩ : SessionB)
            st.userSessions
          let stats := getRoomStats normalizedRoomKey rooms'
          let es₀ : List EmitB :=
            [⟨.toSender, "room-joined",
              .roomJoined normalizedRoomKey "student" (jsTrim studentName)
                stats.total stats.profCount stats.studCount⟩]
          let es₁ :=
            if room'.commands.length > 0
            then es₀ ++ [⟨.toSender, "room-history",
              .roomHistory room'.commands room'.commands.length⟩]
            else es₀
          let es₂ := es₁ ++
            [⟨.toRoom normalizedRoomKey, "user-list-update",
              .userListUpdate (memberNamesB room'.professors)
                (memberNamesB room'.students)
                (room'.professors.length + room'.students.length)⟩]
          (⟨rooms', sessions', channels', st.pending⟩, es₂)

/-- Truncation `room.commands.slice(-1000)` applied when the pushed command list
exceeds 1000 entries (robust variant). -/
def trimCommandsB (h : List EnrichedB) : List EnrichedB :=
  if h.length > 1000 then h.drop (h.length - 1000) else h

/-- Handler `socket.on('draw-command')` of the robust variant. -/
def drawB (now : Nat) (sid : String) (command : Option CmdInB) (st : StateB) :
    StateB × List EmitB :=
  match mapGet sid st.userSessions with
  | none =>
    (st, [⟨.toSender, "permission-denied", .permissionDenied "User session not found"⟩])
  | some s =>
    if s.role ≠ "professor" then
      (st, [⟨.toSender, "permission-denied", .permissionDenied "Only professors can draw"⟩])
    else
      match command with
      | none => (st, [])
      | some c =>
        if c.type = "" then (st, [])
        else
          match c.path with
          | none => (st, [])
          | some ps =>
            let roomKey := s.roomKey
            match mapGet roomKey st.rooms with
            | none =>
              (st, [⟨.toSender, "room-error",
                .roomError "ROOM_GONE" "Room no longer exists"⟩])
            | some room =>
              let enrichedCommand : EnrichedB :=
                ⟨c.type, ps, c.color, c.width, jsSubstr sid 8, s.name, now, roomKey⟩
              let commands' := trimCommandsB (room.commands ++ [enrichedCommand])
              let room' : RoomB :=
                { room with commands := commands',
                            metadata := { room.metadata with lastActivity := now } }
              let rooms' := mapSet roomKey room' st.rooms
              (⟨rooms', st.userSessions, st.channels, st.pending⟩,
               [⟨.toRoomExceptSender roomKey, "draw-command", .draw enrichedCommand⟩])

/-- Handler `socket.on('clear-canvas')` of the robust variant. -/
def clearB (now : Nat) (sid : String) (st : StateB) : StateB × List EmitB :=
  match mapGet sid st.userSessions with
  | none =>
    (st, [⟨.toSender, "permission-denied",
      .permissionDenied "Only professors can clear the canvas"⟩])
  | some s =>
    if s.role ≠ "professor" then
      (st, [⟨.toSender, "permission-denied",
        .permissionDenied "Only professors can clear the canvas"⟩])
    else
      match mapGet s.roomKey st.rooms with
      | none =>
        (st, [⟨.toSender, "room-error", .roomError "ROOM_GONE" "Room no longer exists"⟩])
      | some room =>
        let room' : RoomB :=
          { room with commands := [],
                      metadata := { room.metadata with lastActivity := now } }
        let rooms' := mapSet s.roomKey room' st.rooms
        (⟨rooms', st.userSessions, st.channels, st.pending⟩,
         [⟨.toRoom s.roomKey, "canvas-cleared",
           .canvasCleared (jsSubstr sid 8) s.name⟩])

/-- Handler `socket.on('disconnect')` of the robust variant: the member is
removed from the room; an emptied room is only *scheduled* for deletion
(30 s grace period), a non-empty room broadcasts the updated user list
to the remaining occupants. -/
def disconnectB (now : Nat) (sid : String) (st : StateB) : StateB × List EmitB :=
  let chans := channelLeaveAll sid st.channels
  match mapGet sid st.userSessions with
  | none => (⟨st.rooms, st.userSessions, chans, st.pending⟩, [])
  | some s =>
    let roomKey := s.roomKey
    match mapGet roomKey st.rooms with
    | none =>
      (⟨st.rooms, mapDelete sid st.userSessions, chans, st.pending⟩, [])
    | some room =>
      let room' : RoomB :=
        if s.role = "professor" then
          { room with professors := mapDelete sid room.professors,
                      metadata := { room.metadata with lastActivity := now } }
        else
          { room with students := mapDelete sid room.students,
                      metadata := { room.metadata with lastActivity := now } }
      let rooms' := mapSet roomKey room' st.rooms
      let totalUsers := room'.professors.length + room'.students.length
      if totalUsers = 0 then
        (⟨rooms', mapDelete sid st.userSessions, chans, st.pending ++ [roomKey]⟩, [])
      else
        (⟨rooms', mapDelete sid st.userSessions, chans, st.pending⟩,
         [⟨.toRoomExceptSender roomKey, "user-list-update",
           .userListUpdate (memberNamesB room'.professors)
             (memberNamesB room'.students) totalUsers⟩])

/-- The 30-second deletion timer firing for an emptied room: it re-checks
current occupancy and deletes the room only if it is still empty. -/
def deletionTimerFiresB (roomKey : String) (st : StateB) : StateB :=
  let pending' := st.pending.filter (fun k => k ≠ roomKey)
  match mapGet roomKey st.rooms with
  | none => ⟨st.rooms, st.userSessions, st.channels, pending'⟩
  | some roomCheck =>
    if roomCheck.professors.length = 0 ∧ roomCheck.students.length = 0 then
      ⟨mapDelete roomKey st.rooms, st.userSessions, st.channels, pending'⟩
    else
      ⟨st.rooms, st.userSessions, st.channels, pending'⟩

/-- Room lookup of the REST endpoint `GET /api/rooms/:roomKey` of the
robust variant: the path parameter is uppercased before consulting the
registry (404 when absent; the JSON response body is not modelled). -/
def restRoomLookupB (param : String) (st : StateB) : Option RoomB :=
  mapGet (jsToUpper param) st.rooms

/-! ### Concrete fixture states used by the witness theorems -/

/-- Fixture for witnesses: a simple-variant state with professor `P0001`
(Alice) and student `S0001` (Bob) in room `MATH1`. -/
def stWitA : StateA :=
  ⟨[("MATH1", ⟨some "P0001", ["S0001"], [], 2, 0, "Alice"⟩)],
   [("P0001", ⟨"professor", "Alice", "MATH1", "P0001", 0⟩),
    ("S0001", ⟨"student", "Bob", "MATH1", "S0001", 1⟩)],
   [("MATH1", ["P0001", "S0001"])]⟩

/-- Fixture for witnesses: a robust-variant state with professor `P0001`
(Alice) and student `S0001` (Bob) in room `MATH101`. -/
def stWitB : StateB :=
  ⟨[("MATH101",
     ⟨[("P0001", ⟨"Alice", "P0001", 0, "professor"⟩)],
      [("S0001", ⟨"Bob", "S0001", 1, "student"⟩)],
      [], ⟨0, 1, "Alice", "P0001", "MATH101"⟩⟩)],
   [("P0001", ⟨"professor", "Alice", "MATH101", "P0001"⟩),
    ("S0001", ⟨"student", "Bob", "MATH101", "S0001"⟩)],
   [("MATH101", ["P0001", "S0001"])], []⟩

/-- Fixture for the C6 witness: the states of `stWitA` / `stWitB` with a
non-empty history in the room. -/
def stClrA : StateA :=
  ⟨[("MATH1", ⟨some "P0001", ["S0001"],
      [⟨"draw", [((1 : Int), (2 : Int))], "#2563eb", 2, 5, "P0001", "Alice"⟩],
      2, 0, "Alice"⟩)],
   [("P0001", ⟨"professor", "Alice", "MATH1", "P0001", 0⟩),
    ("S0001", ⟨"student", "Bob", "MATH1", "S0001", 1⟩)],
   [("MATH1", ["P0001", "S0001"])]⟩

/-- Robust-variant fixture for the C6 witness with a non-empty command
history. -/
def stClrB : StateB :=
  ⟨[("MATH101",
     ⟨[("P0001", ⟨"Alice", "P0001", 0, "professor"⟩)],
      [("S0001", ⟨"Bob", "S0001", 1, "student"⟩)],
      [⟨"draw", [((3 : Int), (4 : Int))], "#abc", 5, "P0001", "Alice", 5, "MATH101"⟩],
      ⟨0, 5, "Alice", "P0001", "MATH101"⟩⟩)],
   [("P0001", ⟨"professor", "Alice", "MATH101", "P0001"⟩),
    ("S0001", ⟨"student", "Bob", "MATH101", "S0001"⟩)],
   [("MATH101", ["P0001", "S0001"])], []⟩

/-- Fixture for the C10 witness (simple variant): professor `P0001` has
a Session in room `MATH1`; a second room `SCI42` exists. -/
def stC10A : StateA :=
  ⟨[("MATH1", ⟨some "P0001", [], [], 1, 0, "Alice"⟩),
    ("SCI42", ⟨some "P0002", [], [], 1, 0, "Carol"⟩)],
   [("P0001", ⟨"professor", "Alice", "MATH1", "P0001", 0⟩),
    ("P0002", ⟨"professor", "Carol", "SCI42", "P0002", 0⟩)],
   [("MATH1", ["P0001"]), ("SCI42", ["P0002"])]⟩

/-- Fixture for the C10 witness (robust variant): professor `P0001` has
a Session in room `MATH101`; a second room `SCI421` exists. -/
def stC10B : StateB :=
  ⟨[("MATH101",
     ⟨[("P0001", ⟨"Alice", "P0001", 0, "professor"⟩)], [], [],
      ⟨0, 0, "Alice", "P0001", "MATH101"⟩⟩),
    ("SCI421",
     ⟨[("P0002", ⟨"Carol", "P0002", 0, "professor"⟩)], [], [],
      ⟨0, 0, "Carol", "P0002", "SCI421"⟩⟩)],
   [("P0001", ⟨"professor", "Alice", "MATH101", "P0001"⟩),
    ("P0002", ⟨"professor", "Carol", "SCI421", "P0002"⟩)],
   [("MATH101", ["P0001"]), ("SCI421", ["P0002"])], []⟩

/-- Fixture for the C2 counterexample and the C2 witness: a robust-variant
room already holding exactly 1000 commands. -/
def c2cmd : EnrichedB := ⟨"draw", [((1 : Int), (1 : Int))], "#fff", 2, "P0001", "Alice", 0, "MATH101"⟩

/-- Robust-variant state whose room `MATH101` has 1000 recorded commands. -/
def stC2B : StateB :=
  ⟨[("MATH101",
     ⟨[("P0001", ⟨"Alice", "P0001", 0, "professor"⟩)], [],
      List.replicate 1000 c2cmd, ⟨0, 0, "Alice", "P0001", "MATH101"⟩⟩)],
   [("P0001", ⟨"professor", "Alice", "MATH101", "P0001"⟩)],
   [("MATH101", ["P0001"])], []⟩

/-- Simple-variant state whose room `MATH1` has 1000 recorded commands. -/
def c2cmdA : DrawCommandA := ⟨"draw", [((1 : Int), (1 : Int))], "#fff", 2, 0, "P0001", "Alice"⟩

/-- Simple-variant fixture with a full (1000-entry) history. -/
def stC2A : StateA :=
  ⟨[("MATH1", ⟨some "P0001", [], List.replicate 1000 c2cmdA, 1, 0, "Alice"⟩)],
   [("P0001", ⟨"professor", "Alice", "MATH1", "P0001", 0⟩)],
   [("MATH1", ["P0001"])]⟩

/-- State after a professor creates room `MATH1` (simple variant). -/
def stC3a : StateA :=
  (joinProfA 0 "P0001" ⟨some "Alice", some "math1", true⟩ ⟨[], [], []⟩).1

/-- State after, in addition, student `S0001` (Bob) joins. -/
def stC3b : StateA := (joinStudA 1 "S0001" ⟨some "Bob", some "MATH1"⟩ stC3a).1

/-- State after, further, the professor disconnects, leaving the room with no
professor and one student. -/
def stC3c : StateA := (disconnectA "P0001" stC3b).1

/-- State after a professor creates room `MATH1` and draws one stroke
(simple variant). -/
def stC4a : StateA :=
  (joinProfA 0 "P0001" ⟨some "Alice", some "MATH1", true⟩ ⟨[], [], []⟩).1

/-- State after, in addition, one draw command is recorded. -/
def stC4b : StateA :=
  (drawA 1 "P0001" ⟨some [((1 : Int), (1 : Int))], none, none⟩ stC4a).1

/-- State after, further, the professor — the room's only occupant — disconnects. -/
def stC4c : StateA := (disconnectA "P0001" stC4b).1

/-- Robust-variant fixture for the C4 witness: professor `P0001` is the
only occupant of room `MATH101`, which has one recorded command. -/
def stC4B : StateB :=
  ⟨[("MATH101",
     ⟨[("P0001", ⟨"Alice", "P0001", 0, "professor"⟩)], [],
      [⟨"draw", [((1 : Int), (1 : Int))], "#fff", 2, "P0001", "Alice", 0, "MATH101"⟩],
      ⟨0, 0, "Alice", "P0001", "MATH101"⟩⟩)],
   [("P0001", ⟨"professor", "Alice", "MATH101", "P0001"⟩)],
   [("MATH101", ["P0001"])], []⟩

/-! ### Registry helper lemmas -/

theorem mapGet_mapSet_self {V : Type} (k : String) (v : V) (l : List (String × V)) :
    mapGet k (mapSet k v l) = some v := by
  induction l with
  | nil => simp [mapGet, mapSet]
  | cons hd tl ih =>
    by_cases h : hd.1 = k
    · simp [mapGet, mapSet, h]
    · simp [mapGet, mapSet, h, ih]

theorem mapGet_mapSet_ne {V : Type} {k k' : String} (h : k' ≠ k) (v : V)
    (l : List (String × V)) : mapGet k' (mapSet k v l) = mapGet k' l := by
  induction l with
  | nil => simp [mapGet, mapSet, Ne.symm h]
  | cons hd tl ih =>
    obtain ⟨a, b⟩ := hd
    by_cases hk : a = k
    · subst hk
      simp [mapGet, mapSet, Ne.symm h, h]
    · simp [mapGet, mapSet, hk, ih]

/-! ### Claim theorems -/

/-- Claim C1: a draw-command from a connection whose Session has role
`student` is rejected with a permission-denied emission to the sender
only; the whole server state — in particular the room's history — is
unchanged and nothing is broadcast to the room.  Proved for both server
variants. -/
theorem c1_student_draw_denied
    (now : Nat) (sid : String) (dA : DrawDataA) (cB : Option CmdInB)
    (stA : StateA) (stB : StateB) (sA : SessionA) (sB : SessionB)
    (hA : mapGet sid stA.userSessions = some sA) (hrA : sA.role = "student")
    (hB : mapGet sid stB.userSessions = some sB) (hrB : sB.role = "student") :
    drawA now sid dA stA =
      (stA, [⟨.toSender, "permission-denied",
        .permissionDenied "INSUFFICIENT_PERMISSIONS" "Only professors can draw"⟩]) ∧
    drawB now sid cB stB =
      (stB, [⟨.toSender, "permission-denied",
        .permissionDenied "Only professors can draw"⟩]) := by
  constructor
  · simp only [drawA, hA]
    rw [hrA]
    simp
  · simp only [drawB, hB]
    rw [hrB]
    simp

/-- Witness for C1: the student `S0001` of the fixture states is denied
drawing in both variants and the states are unchanged. -/
theorem c1_student_draw_denied_witness :
    mapGet "S0001" stWitA.userSessions =
      some ⟨"student", "Bob", "MATH1", "S0001", 1⟩ ∧
    mapGet "S0001" stWitB.userSessions =
      some ⟨"student", "Bob", "MATH101", "S0001"⟩ ∧
    drawA 9 "S0001" ⟨some [((1 : Int), (2 : Int))], none, none⟩ stWitA =
      (stWitA, [⟨.toSender, "permission-denied",
        .permissionDenied "INSUFFICIENT_PERMISSIONS" "Only professors can draw"⟩]) ∧
    drawB 9 "S0001" (some ⟨"draw", some [((1 : Int), (2 : Int))], "#fff", 3⟩) stWitB =
      (stWitB, [⟨.toSender, "permission-denied",
        .permissionDenied "Only professors can draw"⟩]) := by
  refine ⟨by decide, by decide, ?_⟩
  exact c1_student_draw_denied 9 "S0001" ⟨some [((1 : Int), (2 : Int))], none, none⟩
    (some ⟨"draw", some [((1 : Int), (2 : Int))], "#fff", 3⟩) stWitA stWitB
    ⟨"student", "Bob", "MATH1", "S0001", 1⟩ ⟨"student", "Bob", "MATH101", "S0001"⟩
    (by decide) rfl (by decide) rfl

/-- Claim C5: a valid draw-command from a connection whose Session has
role `professor` appends exactly one entry (the enriched DrawCommand) to
the room's history — the appended list is only trimmed when it exceeds
the capacity bound, so below capacity the new history is exactly the old
one plus the new command — and the single resulting `draw-command`
emission targets the room excluding the sender: every other occupant of
the room channel at call time is a recipient, the sending connection
never is.  Proved for both server variants. -/
theorem c5_professor_draw
    (now : Nat) (sid : String) (ps : List Point) (col : Option String) (w : Option Nat)
    (cB : CmdInB) (psB : List Point)
    (stA : StateA) (stB : StateB) (sA : SessionA) (sB : SessionB)
    (rA : RoomA) (rB : RoomB)
    (hA : mapGet sid stA.userSessions = some sA) (hrA : sA.role = "professor")
    (hroomA : mapGet sA.roomKey stA.rooms = some rA) (hps : ps ≠ [])
    (hB : mapGet sid stB.userSessions = some sB) (hrB : sB.role = "professor")
    (hroomB : mapGet sB.roomKey stB.rooms = some rB)
    (htype : cB.type ≠ "") (hpath : cB.path = some psB) :
    (drawA now sid ⟨some ps, col, w⟩ stA =
      (⟨mapSet sA.roomKey
          { rA with history := trimHistoryA (rA.history ++
              [⟨"draw", ps, jsOrStr col "#2563eb", jsOrNat w 2, now, sid, sA.name⟩]) }
          stA.rooms,
        stA.userSessions, stA.channels⟩,
       [⟨.toRoomExceptSender sA.roomKey, "draw-command",
         .draw ⟨"draw", ps, jsOrStr col "#2563eb", jsOrNat w 2, now, sid, sA.name⟩⟩]) ∧
     (rA.history.length < 1000 →
       trimHistoryA (rA.history ++
           [⟨"draw", ps, jsOrStr col "#2563eb", jsOrNat w 2, now, sid, sA.name⟩]) =
         rA.history ++
           [⟨"draw", ps, jsOrStr col "#2563eb", jsOrNat w 2, now, sid, sA.name⟩]) ∧
     sid ∉ recipients stA.channels sid (Target.toRoomExceptSender sA.roomKey) ∧
     (∀ m, m ∈ channelMembers sA.roomKey stA.channels → m ≠ sid →
       m ∈ recipients stA.channels sid (Target.toRoomExceptSender sA.roomKey))) ∧
    (drawB now sid (some cB) stB =
      (⟨mapSet sB.roomKey
          { rB with commands := trimCommandsB (rB.commands ++
                      [⟨cB.type, psB, cB.color, cB.width, jsSubstr sid 8, sB.name, now, sB.roomKey⟩]),
                    metadata := { rB.metadata with lastActivity := now } }
          stB.rooms,
        stB.userSessions, stB.channels, stB.pending⟩,
       [⟨.toRoomExceptSender sB.roomKey, "draw-command",
         .draw ⟨cB.type, psB, cB.color, cB.width, jsSubstr sid 8, sB.name, now, sB.roomKey⟩⟩]) ∧
     (rB.commands.length < 1000 →
       trimCommandsB (rB.commands ++
           [⟨cB.type, psB, cB.color, cB.width, jsSubstr sid 8, sB.name, now, sB.roomKey⟩]) =
         rB.commands ++
           [⟨cB.type, psB, cB.color, cB.width, jsSubstr sid 8, sB.name, now, sB.roomKey⟩]) ∧
     sid ∉ recipients stB.channels sid (Target.toRoomExceptSender sB.roomKey) ∧
     (∀ m, m ∈ channelMembers sB.roomKey stB.channels → m ≠ sid →
       m ∈ recipients stB.channels sid (Target.toRoomExceptSender sB.roomKey))) := by
  constructor
  · refine ⟨?_, ?_, ?_, ?_⟩
    · simp only [drawA, hA]
      rw [hrA]
      simp only [ne_eq, not_true_eq_false, if_false, ite_false, reduceIte]
      rw [hroomA]
      simp [hps]
    · intro hlt
      have hlen : ¬((rA.history ++
          [(⟨"draw", ps, jsOrStr col "#2563eb", jsOrNat w 2, now, sid, sA.name⟩ :
            DrawCommandA)]).length > 1000) := by
        simp only [List.length_append, List.length_cons, List.length_nil]
        omega
      simp only [trimHistoryA]
      rw [if_neg hlen]
    · simp [recipients, List.mem_filter]
    · intro m hm hne
      simp [recipients, List.mem_filter, hm, hne]
  · refine ⟨?_, ?_, ?_, ?_⟩
    · simp only [drawB, hB]
      rw [hrB]
      simp only [ne_eq, not_true_eq_false, if_false, ite_false, reduceIte]
      rw [if_neg htype]
      rw [hpath]
      simp only []
      rw [hroomB]
    · intro hlt
      have hlen : ¬((rB.commands ++
          [(⟨cB.type, psB, cB.color, cB.width, jsSubstr sid 8, sB.name, now, sB.roomKey⟩ :
            EnrichedB)]).length > 1000) := by
        simp only [List.length_append, List.length_cons, List.length_nil]
        omega
      simp only [trimCommandsB]
      rw [if_neg hlen]
    · simp [recipients, List.mem_filter]
    · intro m hm hne
      simp [recipients, List.mem_filter, hm, hne]

/-- Witness for C5: professor `P0001` draws in the fixture states; both
variants append exactly the enriched command and emit it to the room
excluding the sender. -/
theorem c5_professor_draw_witness :
    mapGet "P0001" stWitA.userSessions =
      some ⟨"professor", "Alice", "MATH1", "P0001", 0⟩ ∧
    mapGet "MATH1" stWitA.rooms = some ⟨some "P0001", ["S0001"], [], 2, 0, "Alice"⟩ ∧
    mapGet "P0001" stWitB.userSessions = some ⟨"professor", "Alice", "MATH101", "P0001"⟩ ∧
    mapGet "MATH101" stWitB.rooms =
      some ⟨[("P0001", ⟨"Alice", "P0001", 0, "professor"⟩)],
            [("S0001", ⟨"Bob", "S0001", 1, "student"⟩)],
            [], ⟨0, 1, "Alice", "P0001", "MATH101"⟩⟩ ∧
    drawA 9 "P0001" ⟨some [((1 : Int), (2 : Int))], none, none⟩ stWitA =
      (⟨[("MATH1", ⟨some "P0001", ["S0001"],
           [⟨"draw", [((1 : Int), (2 : Int))], "#2563eb", 2, 9, "P0001", "Alice"⟩],
           2, 0, "Alice"⟩)],
        stWitA.userSessions, stWitA.channels⟩,
       [⟨.toRoomExceptSender "MATH1", "draw-command",
         .draw ⟨"draw", [((1 : Int), (2 : Int))], "#2563eb", 2, 9, "P0001", "Alice"⟩⟩]) ∧
    drawB 9 "P0001" (some ⟨"draw", some [((3 : Int), (4 : Int))], "#abc", 5⟩) stWitB =
      (⟨[("MATH101",
          ⟨[("P0001", ⟨"Alice", "P0001", 0, "professor"⟩)],
           [("S0001", ⟨"Bob", "S0001", 1, "student"⟩)],
           [⟨"draw", [((3 : Int), (4 : Int))], "#abc", 5, "P0001", "Alice", 9, "MATH101"⟩],
           ⟨0, 9, "Alice", "P0001", "MATH101"⟩⟩)],
        stWitB.userSessions, stWitB.channels, stWitB.pending⟩,
       [⟨.toRoomExceptSender "MATH101", "draw-command",
         .draw ⟨"draw", [((3 : Int), (4 : Int))], "#abc", 5, "P0001", "Alice", 9, "MATH101"⟩⟩]) := by
  have h := c5_professor_draw 9 "P0001" [((1 : Int), (2 : Int))] none none
    ⟨"draw", some [((3 : Int), (4 : Int))], "#abc", 5⟩ [((3 : Int), (4 : Int))]
    stWitA stWitB
    ⟨"professor", "Alice", "MATH1", "P0001", 0⟩ ⟨"professor", "Alice", "MATH101", "P0001"⟩
    ⟨some "P0001", ["S0001"], [], 2, 0, "Alice"⟩
    ⟨[("P0001", ⟨"Alice", "P0001", 0, "professor"⟩)],
     [("S0001", ⟨"Bob", "S0001", 1, "student"⟩)],
     [], ⟨0, 1, "Alice", "P0001", "MATH101"⟩⟩
    (by decide) rfl (by decide) (by decide)
    (by decide) rfl (by decide) (by decide) rfl
  exact ⟨by decide, by decide, by decide, by decide, h.1.1, h.2.1⟩

/-- Idempotence of `Char.toUpper` (it only affects basic latin letters). -/
theorem charToUpperIdem (c : Char) : c.toUpper.toUpper = c.toUpper := by
  unfold Char.toUpper
  by_cases h : c.toNat ≥ 97 ∧ c.toNat ≤ 122
  · rw [if_pos h]
    have hvalid : (c.toNat - 32).isValidChar := Or.inl (by omega)
    have htn : (Char.ofNat (c.toNat - 32)).toNat = c.toNat - 32 := by
      rw [Char.ofNat, dif_pos hvalid]
      simp [Char.ofNatAux, Char.toNat, UInt32.toNat, BitVec.toNat_ofNatLt]
    rw [htn, if_neg (by omega)]
  · rw [if_neg h, if_neg h]

/-- Idempotence of `jsToUpper`. -/
theorem jsToUpperIdem (s : String) : jsToUpper (jsToUpper s) = jsToUpper s := by
  simp [jsToUpper, List.map_map, Function.comp_def, charToUpperIdem]

/-- Claim C6: a clear-canvas event from a connection whose Session has
role `professor` replaces the room's history with the empty sequence and
emits a single `canvas-cleared` notification to the whole room channel —
whose recipient set is all occupants at call time, the sender included
whenever it is subscribed to the room.  Proved for both server
variants. -/
theorem c6_clear_canvas
    (now : Nat) (sid : String)
    (stA : StateA) (stB : StateB) (sA : SessionA) (sB : SessionB)
    (rA : RoomA) (rB : RoomB)
    (hA : mapGet sid stA.userSessions = some sA) (hrA : sA.role = "professor")
    (hroomA : mapGet sA.roomKey stA.rooms = some rA)
    (hB : mapGet sid stB.userSessions = some sB) (hrB : sB.role = "professor")
    (hroomB : mapGet sB.roomKey stB.rooms = some rB) :
    (clearA now sid stA =
      (⟨mapSet sA.roomKey { rA with history := [] } stA.rooms,
        stA.userSessions, stA.channels⟩,
       [⟨.toRoom sA.roomKey, "canvas-cleared", .canvasCleared sA.name⟩]) ∧
     recipients stA.channels sid (Target.toRoom sA.roomKey) =
       channelMembers sA.roomKey stA.channels ∧
     (sid ∈ channelMembers sA.roomKey stA.channels →
       sid ∈ recipients stA.channels sid (Target.toRoom sA.roomKey))) ∧
    (clearB now sid stB =
      (⟨mapSet sB.roomKey
          { rB with commands := [],
                    metadata := { rB.metadata with lastActivity := now } } stB.rooms,
        stB.userSessions, stB.channels, stB.pending⟩,
       [⟨.toRoom sB.roomKey, "canvas-cleared",
         .canvasCleared (jsSubstr sid 8) sB.name⟩]) ∧
     recipients stB.channels sid (Target.toRoom sB.roomKey) =
       channelMembers sB.roomKey stB.channels ∧
     (sid ∈ channelMembers sB.roomKey stB.channels →
       sid ∈ recipients stB.channels sid (Target.toRoom sB.roomKey))) := by
  constructor
  · refine ⟨?_, rfl, fun h => h⟩
    simp only [clearA, hA]
    rw [hrA]
    simp only [ne_eq, not_true_eq_false, if_false, ite_false, reduceIte]
    rw [hroomA]
  · refine ⟨?_, rfl, fun h => h⟩
    simp only [clearB, hB]
    rw [hrB]
    simp only [ne_eq, not_true_eq_false, if_false, ite_false, reduceIte]
    rw [hroomB]

/-- Witness for C6: professor `P0001` clears the canvas in fixtures with
one recorded command; the history becomes empty and `canvas-cleared`
goes to the whole room. -/
theorem c6_clear_canvas_witness :
    mapGet "P0001" stClrA.userSessions =
      some ⟨"professor", "Alice", "MATH1", "P0001", 0⟩ ∧
    mapGet "P0001" stClrB.userSessions =
      some ⟨"professor", "Alice", "MATH101", "P0001"⟩ ∧
    clearA 9 "P0001" stClrA =
      (⟨[("MATH1", ⟨some "P0001", ["S0001"], [], 2, 0, "Alice"⟩)],
        stClrA.userSessions, stClrA.channels⟩,
       [⟨.toRoom "MATH1", "canvas-cleared", .canvasCleared "Alice"⟩]) ∧
    clearB 9 "P0001" stClrB =
      (⟨[("MATH101",
          ⟨[("P0001", ⟨"Alice", "P0001", 0, "professor"⟩)],
           [("S0001", ⟨"Bob", "S0001", 1, "student"⟩)],
           [], ⟨0, 9, "Alice", "P0001", "MATH101"⟩⟩)],
        stClrB.userSessions, stClrB.channels, stClrB.pending⟩,
       [⟨.toRoom "MATH101", "canvas-cleared", .canvasCleared "P0001" "Alice"⟩]) ∧
    "P0001" ∈ recipients stClrA.channels "P0001" (Target.toRoom "MATH1") ∧
    "P0001" ∈ recipients stClrB.channels "P0001" (Target.toRoom "MATH101") := by
  have h := c6_clear_canvas 9 "P0001" stClrA stClrB
    ⟨"professor", "Alice", "MATH1", "P0001", 0⟩
    ⟨"professor", "Alice", "MATH101", "P0001"⟩
    ⟨some "P0001", ["S0001"],
      [⟨"draw", [((1 : Int), (2 : Int))], "#2563eb", 2, 5, "P0001", "Alice"⟩],
      2, 0, "Alice"⟩
    ⟨[("P0001", ⟨"Alice", "P0001", 0, "professor"⟩)],
     [("S0001", ⟨"Bob", "S0001", 1, "student"⟩)],
     [⟨"draw", [((3 : Int), (4 : Int))], "#abc", 5, "P0001", "Alice", 5, "MATH101"⟩],
     ⟨0, 5, "Alice", "P0001", "MATH101"⟩⟩
    (by decide) rfl (by decide) (by decide) rfl (by decide)
  exact ⟨by decide, by decide, h.1.1, h.2.1,
    h.1.2.2 (by decide), h.2.2.2 (by decide)⟩

/-- Claim C7: a `join-room-as-student` event with a valid name and a
room key (well-formed, per the Room data model) whose normalization is
not present in the Room Registry fails with `ROOM_NOT_FOUND` and leaves
the whole server state unchanged: no Room is created, no Session is
registered.  Proved for both server variants (the simple variant
additionally emits its unconditional `join-attempt-received`
acknowledgment first). -/
theorem c7_student_join_room_not_found
    (now : Nat) (sid n k nB kB : String) (stA : StateA) (stB : StateB)
    (hnA : n ≠ "") (hlenA1 : 1 ≤ (jsTrim n).length) (hlenA2 : (jsTrim n).length ≤ 50)
    (hkA : k ≠ "")
    (habsentA : mapGet (jsToUpper (jsTrim k)) stA.rooms = none)
    (hnB : nB ≠ "") (hlenB : (jsTrim nB).length ≠ 0)
    (hkB : validateRoomKey (some kB) = true)
    (habsentB : mapGet (jsToUpper kB) stB.rooms = none) :
    joinStudA now sid ⟨some n, some k⟩ stA =
      (stA, [⟨.toSender, "join-attempt-received", .ack⟩,
             ⟨.toSender, "room-error",
               .roomError "ROOM_NOT_FOUND" "Room does not exist"⟩]) ∧
    joinStudB now sid ⟨some kB, some nB⟩ stB =
      (stB, [⟨.toSender, "room-error",
               .roomError "ROOM_NOT_FOUND" "Room does not exist"⟩]) := by
  constructor
  · have ht1 : truthy (some n) = true := by simp [truthy, hnA]
    have ht2 : truthy (some k) = true := by simp [truthy, hkA]
    have hname : ¬((jsTrim n).length < 1 ∨ (jsTrim n).length > 50) := by omega
    dsimp only [joinStudA, Option.getD_some]
    rw [ht1, ht2]
    simp only [Bool.true_eq_false, or_self, if_false, reduceIte]
    rw [if_neg hname, habsentA]
  · have ht1 : truthy (some nB) = true := by simp [truthy, hnB]
    dsimp only [joinStudB, Option.getD_some]
    rw [ht1]
    simp only [Bool.true_eq_false, false_or, reduceIte]
    rw [if_neg hlenB, hkB]
    simp only [Bool.true_eq_false, if_false, reduceIte]
    rw [habsentB]

/-- Witness for C7: student `S0009` attempts to join the absent rooms
`PHYS9` (simple variant) / `PHYS99` (robust variant) of the fixture
states and gets `ROOM_NOT_FOUND`; the states are untouched. -/
theorem c7_student_join_room_not_found_witness :
    mapGet "PHYS9" stWitA.rooms = none ∧
    mapGet "PHYS99" stWitB.rooms = none ∧
    validateRoomKey (some "phys99") = true ∧
    joinStudA 9 "S0009" ⟨some "Zoe", some "phys9"⟩ stWitA =
      (stWitA, [⟨.toSender, "join-attempt-received", .ack⟩,
                ⟨.toSender, "room-error",
                  .roomError "ROOM_NOT_FOUND" "Room does not exist"⟩]) ∧
    joinStudB 9 "S0009" ⟨some "phys99", some "Zoe"⟩ stWitB =
      (stWitB, [⟨.toSender, "room-error",
                  .roomError "ROOM_NOT_FOUND" "Room does not exist"⟩]) := by
  have h := c7_student_join_room_not_found 9 "S0009" "Zoe" "phys9" "Zoe" "phys99"
    stWitA stWitB (by decide) (by decide) (by decide) (by decide) (by decide)
    (by decide) (by decide) (by decide) (by decide)
  exact ⟨by decide, by decide, by decide, h.1, h.2⟩

theorem mapSet_mapSet {V : Type} (k : String) (v1 v2 : V) (l : List (String × V)) :
    mapSet k v2 (mapSet k v1 l) = mapSet k v2 l := by
  induction l with
  | nil => simp [mapSet]
  | cons hd tl ih =>
    obtain ⟨a, b⟩ := hd
    by_cases hk : a = k
    · simp [mapSet, hk]
    · simp [mapSet, hk, ih]

/-- Success path of `join-room-as-professor` (simple variant) when the
room is absent and `createIfNotExists` is set: the resulting state.
(The stored session name is the professor name trimmed twice, exactly as
in the source.) -/
theorem joinProfA_create_state
    (now : Nat) (sid n k : String) (stA : StateA)
    (hn : n ≠ "") (hl1 : 1 ≤ (jsTrim n).length) (hl2 : (jsTrim n).length ≤ 50)
    (hk : k ≠ "")
    (hkl1 : 3 ≤ (jsToUpper (jsTrim k)).length) (hkl2 : (jsToUpper (jsTrim k)).length ≤ 20)
    (habsent : mapGet (jsToUpper (jsTrim k)) stA.rooms = none) :
    (joinProfA now sid ⟨some n, some k, true⟩ stA).1 =
      ⟨mapSet (jsToUpper (jsTrim k)) ⟨some sid, [], [], 1, now, jsTrim n⟩ stA.rooms,
       mapSet sid ⟨"professor", jsTrim (jsTrim n), jsToUpper (jsTrim k), sid, now⟩
         stA.userSessions,
       channelJoin (jsToUpper (jsTrim k)) sid stA.channels⟩ := by
  have ht1 : truthy (some n) = true := by simp [truthy, hn]
  have ht2 : truthy (some k) = true := by simp [truthy, hk]
  have hname : ¬((jsTrim n).length < 1 ∨ (jsTrim n).length > 50) := by omega
  have hklen : ¬((jsToUpper (jsTrim k)).length < 3 ∨ (jsToUpper (jsTrim k)).length > 20) := by
    omega
  dsimp only [joinProfA, Option.getD_some]
  rw [ht1, ht2]
  simp only [Bool.true_eq_false, or_self, if_false, reduceIte]
  rw [if_neg hname, if_neg hklen, habsent]

/-- Success path of `join-room-as-professor` (simple variant) on an
existing room whose professor slot is free or already the joiner. -/
theorem joinProfA_existing_state
    (now : Nat) (sid n k : String) (stA : StateA) (r : RoomA)
    (hn : n ≠ "") (hl1 : 1 ≤ (jsTrim n).length) (hl2 : (jsTrim n).length ≤ 50)
    (hk : k ≠ "")
    (hkl1 : 3 ≤ (jsToUpper (jsTrim k)).length) (hkl2 : (jsToUpper (jsTrim k)).length ≤ 20)
    (hroom : mapGet (jsToUpper (jsTrim k)) stA.rooms = some r)
    (hprof : r.professor = none ∨ r.professor = some sid) :
    (joinProfA now sid ⟨some n, some k, true⟩ stA).1 =
      ⟨mapSet (jsToUpper (jsTrim k))
         { r with professor := some sid, userCount := 1 + r.students.length } stA.rooms,
       mapSet sid ⟨"professor", jsTrim (jsTrim n), jsToUpper (jsTrim k), sid, now⟩
         stA.userSessions,
       channelJoin (jsToUpper (jsTrim k)) sid stA.channels⟩ := by
  have ht1 : truthy (some n) = true := by simp [truthy, hn]
  have ht2 : truthy (some k) = true := by simp [truthy, hk]
  have hname : ¬((jsTrim n).length < 1 ∨ (jsTrim n).length > 50) := by omega
  have hklen : ¬((jsToUpper (jsTrim k)).length < 3 ∨ (jsToUpper (jsTrim k)).length > 20) := by
    omega
  have hpr : ¬(r.professor ≠ none ∧ r.professor ≠ some sid) := by
    rcases hprof with h | h <;> simp [h]
  dsimp only [joinProfA, Option.getD_some]
  rw [ht1, ht2]
  simp only [Bool.true_eq_false, or_self, if_false, reduceIte]
  rw [if_neg hname, if_neg hklen, hroom]
  dsimp only
  rw [if_neg hpr]

/-- Success path of `join-room-as-student` (simple variant). -/
theorem joinStudA_join_state
    (now : Nat) (sid n k : String) (stA : StateA) (r : RoomA)
    (hn : n ≠ "") (hl1 : 1 ≤ (jsTrim n).length) (hl2 : (jsTrim n).length ≤ 50)
    (hk : k ≠ "")
    (hroom : mapGet (jsToUpper (jsTrim k)) stA.rooms = some r)
    (hcap : r.userCount < 100) :
    (joinStudA now sid ⟨some n, some k⟩ stA).1 =
      ⟨mapSet (jsToUpper (jsTrim k))
         { r with students := setAdd sid r.students,
                  userCount := 1 + (setAdd sid r.students).length } stA.rooms,
       mapSet sid ⟨"student", jsTrim (jsTrim n), jsToUpper (jsTrim k), sid, now⟩
         stA.userSessions,
       channelJoin (jsToUpper (jsTrim k)) sid stA.channels⟩ := by
  have ht1 : truthy (some n) = true := by simp [truthy, hn]
  have ht2 : truthy (some k) = true := by simp [truthy, hk]
  have hname : ¬((jsTrim n).length < 1 ∨ (jsTrim n).length > 50) := by omega
  have hcap' : ¬(r.userCount ≥ 100) := by omega
  dsimp only [joinStudA, Option.getD_some]
  rw [ht1, ht2]
  simp only [Bool.true_eq_false, or_self, if_false, reduceIte]
  rw [if_neg hname, hroom]
  dsimp only
  rw [if_neg hcap']

/-- Success path of `join-room-as-professor` (robust variant) when the
supplied room key is absent and `createIfNotExists` is set. -/
theorem joinProfB_create_state
    (now : Nat) (g sid n k : String) (stB : StateB)
    (hn : n ≠ "") (hl1 : 1 ≤ (jsTrim n).length)
    (hk : k ≠ "") (hval : validateRoomKey (some k) = true)
    (habsent : mapGet (jsToUpper k) stB.rooms = none) :
    (joinProfB now g sid ⟨some k, some n, true⟩ stB).1 =
      ⟨mapSet (jsToUpper k)
         ⟨[(sid, ⟨jsTrim n, sid, now, "professor"⟩)], [], [],
          ⟨now, now, n, sid, jsToUpper k⟩⟩ stB.rooms,
       mapSet sid ⟨"professor", jsTrim n, jsToUpper k, sid⟩ stB.userSessions,
       channelJoin (jsToUpper k) sid stB.channels, stB.pending⟩ := by
  have ht1 : truthy (some n) = true := by simp [truthy, hn]
  have ht2 : truthy (some k) = true := by simp [truthy, hk]
  have hn0 : ¬((jsTrim n).length = 0) := by omega
  dsimp only [joinProfB, Option.getD_some]
  rw [ht1]
  simp only [Bool.true_eq_false, false_or, reduceIte]
  rw [if_neg hn0, ht2]
  simp only [Bool.true_eq_false, false_and, if_false, reduceIte]
  rw [hval]
  simp only [Bool.true_eq_false, if_false, reduceIte, Option.getD_some]
  rw [habsent]
  dsimp only [createRoom]
  rw [jsToUpperIdem, mapGet_mapSet_self]
  dsimp only
  rw [mapSet_mapSet]
  have h3 : ¬(([] : List (String × MemberB)).length ≥ 3) := by simp
  rw [if_neg h3]
  rfl

/-- Success path of `join-room-as-professor` (robust variant) on an
existing room below the professor limit. -/
theorem joinProfB_existing_state
    (now : Nat) (g sid n k : String) (stB : StateB) (r : RoomB)
    (hn : n ≠ "") (hl1 : 1 ≤ (jsTrim n).length)
    (hk : k ≠ "") (hval : validateRoomKey (some k) = true)
    (hroom : mapGet (jsToUpper k) stB.rooms = some r)
    (hlim : r.professors.length < 3) :
    (joinProfB now g sid ⟨some k, some n, true⟩ stB).1 =
      ⟨mapSet (jsToUpper k)
         { r with professors := mapSet sid ⟨jsTrim n, sid, now, "professor"⟩ r.professors,
                  metadata := { r.metadata with lastActivity := now } } stB.rooms,
       mapSet sid ⟨"professor", jsTrim n, jsToUpper k, sid⟩ stB.userSessions,
       channelJoin (jsToUpper k) sid stB.channels, stB.pending⟩ := by
  have ht1 : truthy (some n) = true := by simp [truthy, hn]
  have ht2 : truthy (some k) = true := by simp [truthy, hk]
  have hn0 : ¬((jsTrim n).length = 0) := by omega
  have hlim' : ¬(r.professors.length ≥ 3) := by omega
  dsimp only [joinProfB, Option.getD_some]
  rw [ht1]
  simp only [Bool.true_eq_false, false_or, reduceIte]
  rw [if_neg hn0, ht2]
  simp only [Bool.true_eq_false, false_and, if_false, reduceIte]
  rw [hval]
  simp only [Bool.true_eq_false, if_false, reduceIte, Option.getD_some]
  rw [hroom]
  dsimp only
  rw [hroom]
  dsimp only
  rw [if_neg hlim']

/-- Success path of `join-room-as-student` (robust variant). -/
theorem joinStudB_join_state
    (now : Nat) (sid n k : String) (stB : StateB) (r : RoomB)
    (hn : n ≠ "") (hl1 : 1 ≤ (jsTrim n).length)
    (hval : validateRoomKey (some k) = true)
    (hroom : mapGet (jsToUpper k) stB.rooms = some r)
    (hprof : r.professors.length ≠ 0) (hcap : r.students.length < 100) :
    (joinStudB now sid ⟨some k, some n⟩ stB).1 =
      ⟨mapSet (jsToUpper k)
         { r with students := mapSet sid ⟨jsTrim n, sid, now, "student"⟩ r.students,
                  metadata := { r.metadata with lastActivity := now } } stB.rooms,
       mapSet sid ⟨"student", jsTrim n, jsToUpper k, sid⟩ stB.userSessions,
       channelJoin (jsToUpper k) sid stB.channels, stB.pending⟩ := by
  have ht1 : truthy (some n) = true := by simp [truthy, hn]
  have hn0 : ¬((jsTrim n).length = 0) := by omega
  have hcap' : ¬(r.students.length ≥ 100) := by omega
  dsimp only [joinStudB, Option.getD_some]
  rw [ht1]
  simp only [Bool.true_eq_false, false_or, reduceIte]
  rw [if_neg hn0, hval]
  simp only [Bool.true_eq_false, if_false, reduceIte, Option.getD_some]
  rw [hroom]
  dsimp only
  rw [if_neg hprof, if_neg hcap']

/-- Claim C9: room-key handling is case-insensitive because every entry
point normalizes the key to uppercase before consulting the Room
Registry.  For any two keys that agree after normalization: in the
simple variant a professor join creating the room via the first key
stores it under the normalized key — so a lookup through the second
key's normalization finds the very room — and the stored Session carries
the normalized key, which is what a later draw-command consults; in the
robust variant the same holds, and additionally the REST lookup
(`GET /api/rooms/:roomKey`) of the second key consults the same registry
entry as the first key's normalization. -/
theorem c9_case_insensitive_keys
    (now : Nat) (sid n k1 k2 k3 k4 : String) (stA : StateA) (stB : StateB)
    (hk12 : jsToUpper (jsTrim k1) = jsToUpper (jsTrim k2))
    (hk34 : jsToUpper k3 = jsToUpper k4)
    (hn : n ≠ "") (hl1 : 1 ≤ (jsTrim n).length) (hl2 : (jsTrim n).length ≤ 50)
    (hk1 : k1 ≠ "")
    (hkl1 : 3 ≤ (jsToUpper (jsTrim k1)).length)
    (hkl2 : (jsToUpper (jsTrim k1)).length ≤ 20)
    (habsentA : mapGet (jsToUpper (jsTrim k1)) stA.rooms = none)
    (hk3 : k3 ≠ "") (hval : validateRoomKey (some k3) = true)
    (habsentB : mapGet (jsToUpper k3) stB.rooms = none) :
    (mapGet (jsToUpper (jsTrim k2))
        (joinProfA now sid ⟨some n, some k1, true⟩ stA).1.rooms =
      some ⟨some sid, [], [], 1, now, jsTrim n⟩ ∧
     mapGet sid (joinProfA now sid ⟨some n, some k1, true⟩ stA).1.userSessions =
      some ⟨"professor", jsTrim (jsTrim n), jsToUpper (jsTrim k1), sid, now⟩) ∧
    (mapGet (jsToUpper k4)
        (joinProfB now "KEYGEN" sid ⟨some k3, some n, true⟩ stB).1.rooms =
      some ⟨[(sid, ⟨jsTrim n, sid, now, "professor"⟩)], [], [],
            ⟨now, now, n, sid, jsToUpper k3⟩⟩ ∧
     restRoomLookupB k4 (joinProfB now "KEYGEN" sid ⟨some k3, some n, true⟩ stB).1 =
      mapGet (jsToUpper k3)
        (joinProfB now "KEYGEN" sid ⟨some k3, some n, true⟩ stB).1.rooms ∧
     mapGet sid (joinProfB now "KEYGEN" sid ⟨some k3, some n, true⟩ stB).1.userSessions =
      some ⟨"professor", jsTrim n, jsToUpper k3, sid⟩) := by
  have hA := joinProfA_create_state now sid n k1 stA hn hl1 hl2 hk1 hkl1 hkl2 habsentA
  have hB := joinProfB_create_state now "KEYGEN" sid n k3 stB hn hl1 hk3 hval habsentB
  refine ⟨⟨?_, ?_⟩, ?_, ?_, ?_⟩
  · rw [hA]
    dsimp only
    rw [← hk12, mapGet_mapSet_self]
  · rw [hA]
    dsimp only
    rw [mapGet_mapSet_self]
  · rw [hB]
    dsimp only
    rw [← hk34, mapGet_mapSet_self]
  · rw [hB]
    dsimp only [restRoomLookupB]
    rw [← hk34]
  · rw [hB]
    dsimp only
    rw [mapGet_mapSet_self]

/-- Witness for C9: starting from empty registries, joining with
`"math101"` and looking up with `"MATH101"` (and conversely for the REST
endpoint) hit the same room in both variants. -/
theorem c9_case_insensitive_keys_witness :
    jsToUpper (jsTrim "math101") = jsToUpper (jsTrim "MATH101") ∧
    validateRoomKey (some "math101") = true ∧
    mapGet (jsToUpper (jsTrim "MATH101"))
        (joinProfA 7 "P0001" ⟨some "Alice", some "math101", true⟩ ⟨[], [], []⟩).1.rooms =
      some ⟨some "P0001", [], [], 1, 7, "Alice"⟩ ∧
    mapGet (jsToUpper "MATH101")
        (joinProfB 7 "KEYGEN" "P0001" ⟨some "math101", some "Alice", true⟩
          ⟨[], [], [], []⟩).1.rooms =
      some ⟨[("P0001", ⟨"Alice", "P0001", 7, "professor"⟩)], [], [],
            ⟨7, 7, "Alice", "P0001", "MATH101"⟩⟩ ∧
    restRoomLookupB "MATH101"
        (joinProfB 7 "KEYGEN" "P0001" ⟨some "math101", some "Alice", true⟩
          ⟨[], [], [], []⟩).1 =
      mapGet (jsToUpper "math101")
        (joinProfB 7 "KEYGEN" "P0001" ⟨some "math101", some "Alice", true⟩
          ⟨[], [], [], []⟩).1.rooms := by
  have h := c9_case_insensitive_keys 7 "P0001" "Alice" "math101" "MATH101" "math101" "MATH101"
    ⟨[], [], []⟩ ⟨[], [], [], []⟩
    (by decide) (by decide) (by decide) (by decide) (by decide) (by decide)
    (by decide) (by decide) (by decide) (by decide) (by decide) (by decide)
  refine ⟨by decide, by decide, ?_, ?_, h.2.2.1⟩
  · have := h.1.1
    simpa using this
  · have := h.2.1
    simpa using this

/-- Claim C10: when a connection that already holds a Session in room A
performs a later successful join to a different room B (any role, any
variant, no intervening disconnect), the Session Registry entry for the
connection is overwritten with the new Session — last join wins, its
room key is B's normalized key — while room A's registry entry is left
completely untouched: the connection's identity is not removed from room
A's professor/student sets and room A's cached occupancy is not
recomputed.  Stated for the professor-join (room-creating) and
student-join success paths of the simple variant and the professor-join
(existing-room) and student-join success paths of the robust variant. -/
theorem c10_last_join_wins
    (now : Nat) (sid n k1 k2 k3 k4 : String)
    (stA : StateA) (sOldA : SessionA) (stB : StateB) (sOldB : SessionB)
    (rA2 : RoomA) (rB3 rB4 : RoomB)
    (hOldA : mapGet sid stA.userSessions = some sOldA)
    (hOldB : mapGet sid stB.userSessions = some sOldB)
    (hn : n ≠ "") (hl1 : 1 ≤ (jsTrim n).length) (hl2 : (jsTrim n).length ≤ 50)
    (hk1 : k1 ≠ "")
    (hkl11 : 3 ≤ (jsToUpper (jsTrim k1)).length)
    (hkl12 : (jsToUpper (jsTrim k1)).length ≤ 20)
    (habsent1 : mapGet (jsToUpper (jsTrim k1)) stA.rooms = none)
    (hne1 : jsToUpper (jsTrim k1) ≠ sOldA.roomKey)
    (hk2 : k2 ≠ "")
    (hroom2 : mapGet (jsToUpper (jsTrim k2)) stA.rooms = some rA2)
    (hcap2 : rA2.userCount < 100)
    (hne2 : jsToUpper (jsTrim k2) ≠ sOldA.roomKey)
    (hk3 : k3 ≠ "") (hval3 : validateRoomKey (some k3) = true)
    (hroom3 : mapGet (jsToUpper k3) stB.rooms = some rB3)
    (hlim3 : rB3.professors.length < 3)
    (hne3 : jsToUpper k3 ≠ sOldB.roomKey)
    (hval4 : validateRoomKey (some k4) = true)
    (hroom4 : mapGet (jsToUpper k4) stB.rooms = some rB4)
    (hprof4 : rB4.professors.length ≠ 0) (hcap4 : rB4.students.length < 100)
    (hne4 : jsToUpper k4 ≠ sOldB.roomKey) :
    (mapGet sid (joinProfA now sid ⟨some n, some k1, true⟩ stA).1.userSessions =
       some ⟨"professor", jsTrim (jsTrim n), jsToUpper (jsTrim k1), sid, now⟩ ∧
     mapGet sOldA.roomKey (joinProfA now sid ⟨some n, some k1, true⟩ stA).1.rooms =
       mapGet sOldA.roomKey stA.rooms) ∧
    (mapGet sid (joinStudA now sid ⟨some n, some k2⟩ stA).1.userSessions =
       some ⟨"student", jsTrim (jsTrim n), jsToUpper (jsTrim k2), sid, now⟩ ∧
     mapGet sOldA.roomKey (joinStudA now sid ⟨some n, some k2⟩ stA).1.rooms =
       mapGet sOldA.roomKey stA.rooms) ∧
    (mapGet sid (joinProfB now "KEYGEN" sid ⟨some k3, some n, true⟩ stB).1.userSessions =
       some ⟨"professor", jsTrim n, jsToUpper k3, sid⟩ ∧
     mapGet sOldB.roomKey (joinProfB now "KEYGEN" sid ⟨some k3, some n, true⟩ stB).1.rooms =
       mapGet sOldB.roomKey stB.rooms) ∧
    (mapGet sid (joinStudB now sid ⟨some k4, some n⟩ stB).1.userSessions =
       some ⟨"student", jsTrim n, jsToUpper k4, sid⟩ ∧
     mapGet sOldB.roomKey (joinStudB now sid ⟨some k4, some n⟩ stB).1.rooms =
       mapGet sOldB.roomKey stB.rooms) := by
  have h1 := joinProfA_create_state now sid n k1 stA hn hl1 hl2 hk1 hkl11 hkl12 habsent1
  have h2 := joinStudA_join_state now sid n k2 stA rA2 hn hl1 hl2 hk2 hroom2 hcap2
  have h3 := joinProfB_existing_state now "KEYGEN" sid n k3 stB rB3 hn hl1 hk3 hval3
    hroom3 hlim3
  have h4 := joinStudB_join_state now sid n k4 stB rB4 hn hl1 hval4 hroom4 hprof4 hcap4
  refine ⟨⟨?_, ?_⟩, ⟨?_, ?_⟩, ⟨?_, ?_⟩, ?_, ?_⟩
  · rw [h1]; dsimp only; rw [mapGet_mapSet_self]
  · rw [h1]; dsimp only; rw [mapGet_mapSet_ne (Ne.symm hne1)]
  · rw [h2]; dsimp only; rw [mapGet_mapSet_self]
  · rw [h2]; dsimp only; rw [mapGet_mapSet_ne (Ne.symm hne2)]
  · rw [h3]; dsimp only; rw [mapGet_mapSet_self]
  · rw [h3]; dsimp only; rw [mapGet_mapSet_ne (Ne.symm hne3)]
  · rw [h4]; dsimp only; rw [mapGet_mapSet_self]
  · rw [h4]; dsimp only; rw [mapGet_mapSet_ne (Ne.symm hne4)]

/-- Witness for C10: connection `P0001` (Session in `MATH1`/`MATH101`)
joins other rooms; the Session is overwritten and the original room's
registry entry is untouched in all four join forms. -/
theorem c10_last_join_wins_witness :
    mapGet "P0001" stC10A.userSessions =
      some ⟨"professor", "Alice", "MATH1", "P0001", 0⟩ ∧
    mapGet "P0001" stC10B.userSessions =
      some ⟨"professor", "Alice", "MATH101", "P0001"⟩ ∧
    (mapGet "P0001" (joinProfA 9 "P0001" ⟨some "Zed", some "art7", true⟩ stC10A).1.userSessions =
       some ⟨"professor", "Zed", "ART7", "P0001", 9⟩ ∧
     mapGet "MATH1" (joinProfA 9 "P0001" ⟨some "Zed", some "art7", true⟩ stC10A).1.rooms =
       mapGet "MATH1" stC10A.rooms) ∧
    (mapGet "P0001" (joinStudA 9 "P0001" ⟨some "Zed", some "sci42"⟩ stC10A).1.userSessions =
       some ⟨"student", "Zed", "SCI42", "P0001", 9⟩ ∧
     mapGet "MATH1" (joinStudA 9 "P0001" ⟨some "Zed", some "sci42"⟩ stC10A).1.rooms =
       mapGet "MATH1" stC10A.rooms) ∧
    (mapGet "P0001"
        (joinProfB 9 "KEYGEN" "P0001" ⟨some "sci421", some "Zed", true⟩ stC10B).1.userSessions =
       some ⟨"professor", "Zed", "SCI421", "P0001"⟩ ∧
     mapGet "MATH101"
        (joinProfB 9 "KEYGEN" "P0001" ⟨some "sci421", some "Zed", true⟩ stC10B).1.rooms =
       mapGet "MATH101" stC10B.rooms) ∧
    (mapGet "P0001" (joinStudB 9 "P0001" ⟨some "sci421", some "Zed"⟩ stC10B).1.userSessions =
       some ⟨"student", "Zed", "SCI421", "P0001"⟩ ∧
     mapGet "MATH101" (joinStudB 9 "P0001" ⟨some "sci421", some "Zed"⟩ stC10B).1.rooms =
       mapGet "MATH101" stC10B.rooms) := by
  have h := c10_last_join_wins 9 "P0001" "Zed" "art7" "sci42" "sci421" "sci421"
    stC10A ⟨"professor", "Alice", "MATH1", "P0001", 0⟩
    stC10B ⟨"professor", "Alice", "MATH101", "P0001"⟩
    ⟨some "P0002", [], [], 1, 0, "Carol"⟩
    ⟨[("P0002", ⟨"Carol", "P0002", 0, "professor"⟩)], [], [],
     ⟨0, 0, "Carol", "P0002", "SCI421"⟩⟩
    ⟨[("P0002", ⟨"Carol", "P0002", 0, "professor"⟩)], [], [],
     ⟨0, 0, "Carol", "P0002", "SCI421"⟩⟩
    (by decide) (by decide) (by decide) (by decide) (by decide) (by decide)
    (by decide) (by decide) (by decide) (by decide) (by decide) (by decide)
    (by decide) (by decide) (by decide) (by decide) (by decide) (by decide)
    (by decide) (by decide) (by decide) (by decide) (by decide) (by decide)
  exact ⟨by decide, by decide, h.1, h.2.1, h.2.2.1, h.2.2.2⟩

/-- Success path of `draw-command` (simple variant): the resulting state. -/
theorem drawA_success_state
    (now : Nat) (sid : String) (ps : List Point) (col : Option String) (w : Option Nat)
    (stA : StateA) (sA : SessionA) (rA : RoomA)
    (hA : mapGet sid stA.userSessions = some sA) (hrA : sA.role = "professor")
    (hroomA : mapGet sA.roomKey stA.rooms = some rA) (hps : ps ≠ []) :
    (drawA now sid ⟨some ps, col, w⟩ stA).1 =
      ⟨mapSet sA.roomKey
         { rA with history := trimHistoryA (rA.history ++
             [⟨"draw", ps, jsOrStr col "#2563eb", jsOrNat w 2, now, sid, sA.name⟩]) }
         stA.rooms,
       stA.userSessions, stA.channels⟩ := by
  simp only [drawA, hA]
  rw [hrA]
  simp only [ne_eq, not_true_eq_false, if_false, ite_false, reduceIte]
  rw [hroomA]
  simp [hps]

/-- Success path of `draw-command` (robust variant): the resulting state. -/
theorem drawB_success_state
    (now : Nat) (sid : String) (cB : CmdInB) (psB : List Point)
    (stB : StateB) (sB : SessionB) (rB : RoomB)
    (hB : mapGet sid stB.userSessions = some sB) (hrB : sB.role = "professor")
    (hroomB : mapGet sB.roomKey stB.rooms = some rB)
    (htype : cB.type ≠ "") (hpath : cB.path = some psB) :
    (drawB now sid (some cB) stB).1 =
      ⟨mapSet sB.roomKey
         { rB with commands := trimCommandsB (rB.commands ++
                     [⟨cB.type, psB, cB.color, cB.width, jsSubstr sid 8, sB.name, now,
                       sB.roomKey⟩]),
                   metadata := { rB.metadata with lastActivity := now } }
         stB.rooms,
       stB.userSessions, stB.channels, stB.pending⟩ := by
  simp only [drawB, hB]
  rw [hrB]
  simp only [ne_eq, not_true_eq_false, if_false, ite_false, reduceIte]
  rw [if_neg htype, hpath]
  simp only []
  rw [hroomB]

set_option maxRecDepth 1000000 in
/-- Counterexample to C2 as stated: in the robust variant (one of the two
server variants the claim's sources cite) a room holding 1000 draw
commands ends up with a history of length 1000 after the 1001st append —
`commands.slice(-1000)` — not 500. -/
theorem c2_counterexample :
    ((mapGet "MATH101" stC2B.rooms).map (fun r => r.commands.length) = some 1000) ∧
    ((mapGet "MATH101"
        (drawB 9 "P0001" (some ⟨"draw", some [((2 : Int), (2 : Int))], "#abc", 3⟩)
          stC2B).1.rooms).map (fun r => r.commands.length) = some 1000) ∧
    (1000 : Nat) ≠ 500 := by decide

/-- Claim C2 as amended: when a room's history holds 1000 draw commands
and a professor appends a 1001st, the simple variant truncates the
history to its most recent 500 entries (`history.slice(-500)`), while
the robust variant keeps the most recent 1000 (`commands.slice(-1000)`);
in both variants the retained history is a suffix of the appended
sequence — the most recent commands in their original append order. -/
theorem c2_amended
    (now : Nat) (sid : String) (ps : List Point) (col : Option String) (w : Option Nat)
    (cB : CmdInB) (psB : List Point)
    (stA : StateA) (stB : StateB) (sA : SessionA) (sB : SessionB)
    (rA : RoomA) (rB : RoomB)
    (hA : mapGet sid stA.userSessions = some sA) (hrA : sA.role = "professor")
    (hroomA : mapGet sA.roomKey stA.rooms = some rA) (hps : ps ≠ [])
    (hlenA : rA.history.length = 1000)
    (hB : mapGet sid stB.userSessions = some sB) (hrB : sB.role = "professor")
    (hroomB : mapGet sB.roomKey stB.rooms = some rB)
    (htype : cB.type ≠ "") (hpath : cB.path = some psB)
    (hlenB : rB.commands.length = 1000) :
    ((mapGet sA.roomKey (drawA now sid ⟨some ps, col, w⟩ stA).1.rooms).map
        (fun r => r.history.length) = some 500 ∧
     (mapGet sA.roomKey (drawA now sid ⟨some ps, col, w⟩ stA).1.rooms).map
        (fun r => r.history) =
       some ((rA.history ++
         [(⟨"draw", ps, jsOrStr col "#2563eb", jsOrNat w 2, now, sid, sA.name⟩ : DrawCommandA)]).drop 501) ∧
     List.IsSuffix
       ((rA.history ++
          [(⟨"draw", ps, jsOrStr col "#2563eb", jsOrNat w 2, now, sid, sA.name⟩ : DrawCommandA)]).drop 501)
       (rA.history ++
          [(⟨"draw", ps, jsOrStr col "#2563eb", jsOrNat w 2, now, sid, sA.name⟩ : DrawCommandA)])) ∧
    ((mapGet sB.roomKey (drawB now sid (some cB) stB).1.rooms).map
        (fun r => r.commands.length) = some 1000 ∧
     (mapGet sB.roomKey (drawB now sid (some cB) stB).1.rooms).map
        (fun r => r.commands) =
       some ((rB.commands ++
         [(⟨cB.type, psB, cB.color, cB.width, jsSubstr sid 8, sB.name, now,
           sB.roomKey⟩ : EnrichedB)]).drop 1) ∧
     List.IsSuffix
       ((rB.commands ++
          [(⟨cB.type, psB, cB.color, cB.width, jsSubstr sid 8, sB.name, now,
            sB.roomKey⟩ : EnrichedB)]).drop 1)
       (rB.commands ++
          [(⟨cB.type, psB, cB.color, cB.width, jsSubstr sid 8, sB.name, now,
            sB.roomKey⟩ : EnrichedB)])) := by
  have hstA := drawA_success_state now sid ps col w stA sA rA hA hrA hroomA hps
  have hstB := drawB_success_state now sid cB psB stB sB rB hB hrB hroomB htype hpath
  have hlA : (rA.history ++
      [(⟨"draw", ps, jsOrStr col "#2563eb", jsOrNat w 2, now, sid, sA.name⟩ :
        DrawCommandA)]).length = 1001 := by
    simp [hlenA]
  have htrimA : trimHistoryA (rA.history ++
      [(⟨"draw", ps, jsOrStr col "#2563eb", jsOrNat w 2, now, sid, sA.name⟩ : DrawCommandA)]) =
      (rA.history ++
        [(⟨"draw", ps, jsOrStr col "#2563eb", jsOrNat w 2, now, sid, sA.name⟩ : DrawCommandA)]).drop 501 := by
    simp only [trimHistoryA, hlA]
    rw [if_pos (by omega)]
  have hlB : (rB.commands ++
      [(⟨cB.type, psB, cB.color, cB.width, jsSubstr sid 8, sB.name, now, sB.roomKey⟩ :
        EnrichedB)]).length = 1001 := by
    simp [hlenB]
  have htrimB : trimCommandsB (rB.commands ++
      [(⟨cB.type, psB, cB.color, cB.width, jsSubstr sid 8, sB.name, now, sB.roomKey⟩ : EnrichedB)]) =
      (rB.commands ++
        [(⟨cB.type, psB, cB.color, cB.width, jsSubstr sid 8, sB.name, now,
          sB.roomKey⟩ : EnrichedB)]).drop 1 := by
    simp only [trimCommandsB, hlB]
    rw [if_pos (by omega)]
  refine ⟨⟨?_, ?_, ?_⟩, ?_, ?_, ?_⟩
  · rw [hstA]
    dsimp only
    rw [mapGet_mapSet_self]
    simp only [Option.map_some']
    rw [htrimA]
    simp [List.length_drop, hlA]
  · rw [hstA]
    dsimp only
    rw [mapGet_mapSet_self]
    simp only [Option.map_some']
    rw [htrimA]
  · exact List.drop_suffix 501 _
  · rw [hstB]
    dsimp only
    rw [mapGet_mapSet_self]
    simp only [Option.map_some']
    rw [htrimB]
    simp [List.length_drop, hlB]
  · rw [hstB]
    dsimp only
    rw [mapGet_mapSet_self]
    simp only [Option.map_some']
    rw [htrimB]
  · exact List.drop_suffix 1 _

set_option maxRecDepth 1000000 in
/-- Witness for the amended C2: on concrete rooms holding exactly 1000
commands, the 1001st append leaves 500 commands in the simple variant
and 1000 in the robust variant. -/
theorem c2_amended_witness :
    (mapGet "MATH1" stC2A.rooms).map (fun r => r.history.length) = some 1000 ∧
    (mapGet "MATH101" stC2B.rooms).map (fun r => r.commands.length) = some 1000 ∧
    (mapGet "MATH1"
        (drawA 9 "P0001" ⟨some [((2 : Int), (2 : Int))], none, none⟩ stC2A).1.rooms).map
      (fun r => r.history.length) = some 500 ∧
    (mapGet "MATH101"
        (drawB 9 "P0001" (some ⟨"draw", some [((2 : Int), (2 : Int))], "#abc", 3⟩)
          stC2B).1.rooms).map
      (fun r => r.commands.length) = some 1000 := by
  have h := c2_amended 9 "P0001" [((2 : Int), (2 : Int))] none none
    ⟨"draw", some [((2 : Int), (2 : Int))], "#abc", 3⟩ [((2 : Int), (2 : Int))]
    stC2A stC2B
    ⟨"professor", "Alice", "MATH1", "P0001", 0⟩ ⟨"professor", "Alice", "MATH101", "P0001"⟩
    ⟨some "P0001", [], List.replicate 1000 c2cmdA, 1, 0, "Alice"⟩
    ⟨[("P0001", ⟨"Alice", "P0001", 0, "professor"⟩)], [],
     List.replicate 1000 c2cmd, ⟨0, 0, "Alice", "P0001", "MATH101"⟩⟩
    rfl rfl rfl (by decide) (by simp)
    rfl rfl rfl (by decide) rfl (by simp)
  exact ⟨by decide, by decide, h.1.1, h.2.1⟩

/-- Claim C3 is right and the simple variant's code is wrong: after the
professor disconnects, a second student join reports occupancy 3 (in
both `room-joined`'s `userCount` and `user-list-update`'s `total`,
computed as the hardcoded `1 + students.size`), while the room actually
holds 0 professors and 2 students — the spec's occupancy, professors
plus students, is 2.  The robust variant computes the total from the two
sets and is unaffected. -/
theorem c3_occupancy_overcount :
    (mapGet "MATH1" stC3c.rooms).map (fun r => (r.professor, r.students)) =
      some (none, ["S0001"]) ∧
    ((joinStudA 2 "S0002" ⟨some "Caro", some "MATH1"⟩ stC3c).2.filter
        (fun e => e.event = "room-joined")) =
      [⟨.toSender, "room-joined", .roomJoined true "MATH1" 3 "student"⟩] ∧
    ((joinStudA 2 "S0002" ⟨some "Caro", some "MATH1"⟩ stC3c).2.filter
        (fun e => e.event = "user-list-update")) =
      [⟨.toRoom "MATH1", "user-list-update",
        .userListUpdate 3 (some "Unknown Professor") ["Bob", "Caro"]⟩] ∧
    ((mapGet "MATH1" (joinStudA 2 "S0002" ⟨some "Caro", some "MATH1"⟩ stC3c).1.rooms).map
        (fun r => (if r.professor.isSome then 1 else 0) + r.students.length)) = some 2 ∧
    (3 : Nat) ≠ 2 := by decide

theorem mapGet_eq_none_of_not_mem {V : Type} {k : String} {l : List (String × V)}
    (h : k ∉ l.map Prod.fst) : mapGet k l = none := by
  induction l with
  | nil => rfl
  | cons hd tl ih =>
    obtain ⟨a, b⟩ := hd
    simp only [List.map_cons, List.mem_cons, not_or] at h
    have hak : a ≠ k := fun hh => h.1 hh.symm
    simp [mapGet, hak, ih h.2]

theorem mapGet_mapDelete_self {V : Type} {k : String} {l : List (String × V)}
    (h : (l.map Prod.fst).Nodup) : mapGet k (mapDelete k l) = none := by
  induction l with
  | nil => rfl
  | cons hd tl ih =>
    obtain ⟨a, b⟩ := hd
    simp only [List.map_cons, List.nodup_cons] at h
    by_cases hk : a = k
    · subst hk
      simp [mapDelete, mapGet_eq_none_of_not_mem h.1]
    · simp [mapDelete, mapGet, hk, ih h.2]

/-- Behavior of `disconnect` of the robust variant when the departing professor is
the room's only occupant: the Session is removed, the room stays in the
registry with its command history intact, and its deletion is only
scheduled (appended to the pending grace-period timers). -/
theorem disconnectB_last_professor_state
    (now : Nat) (sid K : String) (stB : StateB) (r : RoomB) (pd : MemberB) (s : SessionB)
    (hsess : mapGet sid stB.userSessions = some s) (hrole : s.role = "professor")
    (hkey : s.roomKey = K)
    (hroom : mapGet K stB.rooms = some r)
    (hprofs : r.professors = [(sid, pd)]) (hstuds : r.students = []) :
    (disconnectB now sid stB).1 =
      ⟨mapSet K { r with professors := [],
                         metadata := { r.metadata with lastActivity := now } } stB.rooms,
       mapDelete sid stB.userSessions,
       channelLeaveAll sid stB.channels, stB.pending ++ [K]⟩ := by
  dsimp only [disconnectB]
  rw [hsess]
  dsimp only
  rw [hkey, hroom]
  dsimp only
  rw [hrole]
  simp only [if_pos rfl, reduceIte, hprofs, hstuds, mapDelete, if_pos rfl, List.length_nil,
    Nat.add_zero, List.length_cons, Nat.zero_add, if_true]

/-- Rejoining via `join-room-as-professor` (robust variant) on an existing room with a
non-empty command history replays the history to the joiner via a
`room-history` emission. -/
theorem joinProfB_existing_history_emit
    (now : Nat) (g sid n k : String) (stB : StateB) (r : RoomB)
    (hn : n ≠ "") (hl1 : 1 ≤ (jsTrim n).length)
    (hk : k ≠ "") (hval : validateRoomKey (some k) = true)
    (hroom : mapGet (jsToUpper k) stB.rooms = some r)
    (hlim : r.professors.length < 3) (hne : r.commands ≠ []) :
    (⟨.toSender, "room-history", .roomHistory r.commands r.commands.length⟩ : EmitB) ∈
      (joinProfB now g sid ⟨some k, some n, true⟩ stB).2 := by
  have ht1 : truthy (some n) = true := by simp [truthy, hn]
  have ht2 : truthy (some k) = true := by simp [truthy, hk]
  have hn0 : ¬((jsTrim n).length = 0) := by omega
  have hlim' : ¬(r.professors.length ≥ 3) := by omega
  have hp : r.commands.length > 0 := List.length_pos.mpr hne
  dsimp only [joinProfB, Option.getD_some]
  rw [ht1]
  simp only [Bool.true_eq_false, false_or, reduceIte]
  rw [if_neg hn0, ht2]
  simp only [Bool.true_eq_false, false_and, if_false, reduceIte]
  rw [hval]
  simp only [Bool.true_eq_false, if_false, reduceIte, Option.getD_some]
  rw [hroom]
  dsimp only
  rw [hroom]
  dsimp only
  rw [if_neg hlim']
  dsimp only
  rw [if_pos hp]
  simp

/-- Counterexample to C4 as stated: in the simple variant (one of the two
server variants the claim's sources cite) there is no grace period — the
room of a disconnecting sole occupant is deleted immediately, and a
professor re-joining the same key right away finds an empty history and
receives no `room-history` replay: the prior history is lost. -/
theorem c4_counterexample :
    ((mapGet "MATH1" stC4b.rooms).map
        (fun r => (r.professor, r.students, r.history.length)) =
      some (some "P0001", [], 1)) ∧
    mapGet "P0001" stC4c.userSessions = none ∧
    mapGet "MATH1" stC4c.rooms = none ∧
    ((mapGet "MATH1"
        (joinProfA 2 "P0002" ⟨some "Alice", some "MATH1", true⟩ stC4c).1.rooms).map
        (fun r => r.history)) = some [] ∧
    ((joinProfA 2 "P0002" ⟨some "Alice", some "MATH1", true⟩ stC4c).2.filter
        (fun e => e.event = "room-history")) = [] := by decide

/-- Claim C4 as amended, restricted to the robust variant (the simple
variant deletes an emptied room immediately, as the counterexample
shows): when the only occupant of a room — its sole professor —
disconnects, the Session is removed, the room's deletion is merely
scheduled after the grace period, and its draw history is retained; a
professor re-joining the same key before the timer fires finds the prior
history intact (replayed via `room-history` when non-empty), and the
timer's occupancy re-check then leaves the re-occupied room alive. -/
theorem c4_amended
    (now now2 : Nat) (sid sid2 g n2 k2 K : String) (stB : StateB)
    (r : RoomB) (pd : MemberB) (s : SessionB)
    (hnodup : (stB.userSessions.map Prod.fst).Nodup)
    (hroom : mapGet K stB.rooms = some r)
    (hprofs : r.professors = [(sid, pd)]) (hstuds : r.students = [])
    (hsess : mapGet sid stB.userSessions = some s)
    (hrole : s.role = "professor") (hkey : s.roomKey = K)
    (hn2 : n2 ≠ "") (hl2 : 1 ≤ (jsTrim n2).length)
    (hk2 : k2 ≠ "") (hval2 : validateRoomKey (some k2) = true)
    (hk2K : jsToUpper k2 = K) :
    mapGet sid (disconnectB now sid stB).1.userSessions = none ∧
    ((mapGet K (disconnectB now sid stB).1.rooms).map (fun x => x.commands)) =
      some r.commands ∧
    K ∈ (disconnectB now sid stB).1.pending ∧
    ((mapGet K (joinProfB now2 g sid2 ⟨some k2, some n2, true⟩
        (disconnectB now sid stB).1).1.rooms).map (fun x => x.commands)) =
      some r.commands ∧
    (r.commands ≠ [] →
      (⟨.toSender, "room-history", .roomHistory r.commands r.commands.length⟩ : EmitB) ∈
        (joinProfB now2 g sid2 ⟨some k2, some n2, true⟩ (disconnectB now sid stB).1).2) ∧
    mapGet K (deletionTimerFiresB K
        (joinProfB now2 g sid2 ⟨some k2, some n2, true⟩ (disconnectB now sid stB).1).1).rooms ≠
      none := by
  have hdis := disconnectB_last_professor_state now sid K stB r pd s hsess hrole hkey
    hroom hprofs hstuds
  have hroom' : mapGet (jsToUpper k2) (disconnectB now sid stB).1.rooms =
      some { r with professors := [],
                    metadata := { r.metadata with lastActivity := now } } := by
    rw [hdis]
    dsimp only
    rw [hk2K, mapGet_mapSet_self]
  have hjoin := joinProfB_existing_state now2 g sid2 n2 k2 (disconnectB now sid stB).1
    { r with professors := [], metadata := { r.metadata with lastActivity := now } }
    hn2 hl2 hk2 hval2 hroom' (by simp)
  refine ⟨?_, ?_, ?_, ?_, ?_, ?_⟩
  · rw [hdis]
    exact mapGet_mapDelete_self hnodup
  · rw [hdis]
    dsimp only
    rw [mapGet_mapSet_self]
    rfl
  · rw [hdis]
    simp
  · rw [hjoin]
    dsimp only
    rw [hk2K, mapGet_mapSet_self]
    rfl
  · intro hne
    exact joinProfB_existing_history_emit now2 g sid2 n2 k2 (disconnectB now sid stB).1
      { r with professors := [], metadata := { r.metadata with lastActivity := now } }
      hn2 hl2 hk2 hval2 hroom' (by simp) (by simpa using hne)
  · rw [hjoin]
    dsimp only [deletionTimerFiresB]
    rw [hk2K, mapGet_mapSet_self]
    dsimp only
    simp [mapSet, mapGet_mapSet_self]

/-- Witness for the amended C4: the sole professor of `MATH101`
disconnects; the session is gone, the room and its one-command history
survive with deletion merely scheduled, a new professor re-joins before
the timer, receives the history replay, and the timer re-check does not
delete the room. -/
theorem c4_amended_witness :
    mapGet "P0001" (disconnectB 5 "P0001" stC4B).1.userSessions = none ∧
    (mapGet "MATH101" (disconnectB 5 "P0001" stC4B).1.rooms).map (fun x => x.commands) =
      some [(⟨"draw", [((1 : Int), (1 : Int))], "#fff", 2, "P0001", "Alice", 0,
        "MATH101"⟩ : EnrichedB)] ∧
    "MATH101" ∈ (disconnectB 5 "P0001" stC4B).1.pending ∧
    (mapGet "MATH101"
        (joinProfB 6 "KEYGEN" "P0002" ⟨some "math101", some "Zed", true⟩
          (disconnectB 5 "P0001" stC4B).1).1.rooms).map (fun x => x.commands) =
      some [(⟨"draw", [((1 : Int), (1 : Int))], "#fff", 2, "P0001", "Alice", 0,
        "MATH101"⟩ : EnrichedB)] ∧
    (⟨.toSender, "room-history",
      .roomHistory
        [(⟨"draw", [((1 : Int), (1 : Int))], "#fff", 2, "P0001", "Alice", 0,
          "MATH101"⟩ : EnrichedB)]
        ([(⟨"draw", [((1 : Int), (1 : Int))], "#fff", 2, "P0001", "Alice", 0,
          "MATH101"⟩ : EnrichedB)]).length⟩ : EmitB) ∈
      (joinProfB 6 "KEYGEN" "P0002" ⟨some "math101", some "Zed", true⟩
        (disconnectB 5 "P0001" stC4B).1).2 ∧
    mapGet "MATH101"
      (deletionTimerFiresB "MATH101"
        (joinProfB 6 "KEYGEN" "P0002" ⟨some "math101", some "Zed", true⟩
          (disconnectB 5 "P0001" stC4B).1).1).rooms ≠ none := by
  have h := c4_amended 5 6 "P0001" "P0002" "KEYGEN" "Zed" "math101" "MATH101" stC4B
    ⟨[("P0001", ⟨"Alice", "P0001", 0, "professor"⟩)], [],
     [⟨"draw", [((1 : Int), (1 : Int))], "#fff", 2, "P0001", "Alice", 0, "MATH101"⟩],
     ⟨0, 0, "Alice", "P0001", "MATH101"⟩⟩
    ⟨"Alice", "P0001", 0, "professor"⟩
    ⟨"professor", "Alice", "MATH101", "P0001"⟩
    (by decide) (by decide) (by decide) (by decide) (by decide) (by decide)
    (by decide) (by decide) (by decide) (by decide) (by decide) (by decide)
  exact ⟨h.1, h.2.1, h.2.2.1, h.2.2.2.1, h.2.2.2.2.1 (by decide), h.2.2.2.2.2⟩

/-- Counterexample to C8 as stated: the simple variant's professor join
validates only the key length (3–20), not the character set.  The key
`"ab*"` contains a non-alphanumeric character — the robust variant's
`validateRoomKey` rejects it — yet the simple variant accepts it, emits
a successful `room-joined`, emits no error, and creates a room under key
`"AB*"`. -/
theorem c8_counterexample :
    validateRoomKey (some "ab*") = false ∧
    ((joinProfA 0 "P0001" ⟨some "Alice", some "ab*", true⟩ ⟨[], [], []⟩).2.filter
        (fun e => e.event = "room-joined")) =
      [⟨.toSender, "room-joined", .roomJoined true "AB*" 1 "professor"⟩] ∧
    ((joinProfA 0 "P0001" ⟨some "Alice", some "ab*", true⟩ ⟨[], [], []⟩).2.filter
        (fun e => e.event = "room-error")) = [] ∧
    mapGet "AB*" (joinProfA 0 "P0001" ⟨some "Alice", some "ab*", true⟩ ⟨[], [], []⟩).1.rooms ≠
      none := by decide

/-- Claim C8 as amended: only the robust variant enforces the full key
format — both of its joins reject a key that fails `validateRoomKey`
(3–20 alphanumeric after trim/uppercase) with `INVALID_ROOM_KEY` before
any state mutation.  The simple variant's professor join rejects (with
`INVALID_ROOM_KEY`, before any mutation) exactly when the trimmed,
uppercased key is shorter than 3 or longer than 20 — a non-alphanumeric
key of valid length is accepted and a room is created under it — and its
student join performs no key-format validation at all (an absent key of
any shape just fails room lookup). -/
theorem c8_amended
    (now : Nat) (g sid n kb ka kg ks : String) (stA : StateA) (stB : StateB)
    (hn : n ≠ "") (hl1 : 1 ≤ (jsTrim n).length) (hl2 : (jsTrim n).length ≤ 50)
    (hkb : kb ≠ "") (hvalb : validateRoomKey (some kb) = false)
    (hka : ka ≠ "")
    (hbad : (jsToUpper (jsTrim ka)).length < 3 ∨ (jsToUpper (jsTrim ka)).length > 20)
    (hkg : kg ≠ "")
    (hgl1 : 3 ≤ (jsToUpper (jsTrim kg)).length) (hgl2 : (jsToUpper (jsTrim kg)).length ≤ 20)
    (habsentg : mapGet (jsToUpper (jsTrim kg)) stA.rooms = none)
    (hks : ks ≠ "")
    (habsents : mapGet (jsToUpper (jsTrim ks)) stA.rooms = none) :
    joinProfB now g sid ⟨some kb, some n, true⟩ stB =
      (stB, [⟨.toSender, "room-error",
        .roomError "INVALID_ROOM_KEY"
          "Invalid room key. Must be 3-20 alphanumeric characters."⟩]) ∧
    joinStudB now sid ⟨some kb, some n⟩ stB =
      (stB, [⟨.toSender, "room-error",
        .roomError "INVALID_ROOM_KEY" "Invalid room key format"⟩]) ∧
    joinProfA now sid ⟨some n, some ka, true⟩ stA =
      (stA, [⟨.toSender, "join-attempt-received", .ack⟩,
             ⟨.toSender, "room-error",
               .roomError "INVALID_ROOM_KEY" "Room key must be 3-20 characters"⟩]) ∧
    mapGet (jsToUpper (jsTrim kg))
        (joinProfA now sid ⟨some n, some kg, true⟩ stA).1.rooms =
      some ⟨some sid, [], [], 1, now, jsTrim n⟩ ∧
    joinStudA now sid ⟨some n, some ks⟩ stA =
      (stA, [⟨.toSender, "join-attempt-received", .ack⟩,
             ⟨.toSender, "room-error",
               .roomError "ROOM_NOT_FOUND" "Room does not exist"⟩]) := by
  have ht1 : truthy (some n) = true := by simp [truthy, hn]
  have htb : truthy (some kb) = true := by simp [truthy, hkb]
  have hta : truthy (some ka) = true := by simp [truthy, hka]
  have hts : truthy (some ks) = true := by simp [truthy, hks]
  have hn0 : ¬((jsTrim n).length = 0) := by omega
  have hname : ¬((jsTrim n).length < 1 ∨ (jsTrim n).length > 50) := by omega
  refine ⟨?_, ?_, ?_, ?_, ?_⟩
  · dsimp only [joinProfB, Option.getD_some]
    rw [ht1]
    simp only [Bool.true_eq_false, false_or, reduceIte]
    rw [if_neg hn0, htb]
    simp only [Bool.true_eq_false, false_and, if_false, reduceIte]
    rw [hvalb]
    simp only [reduceIte]
  · dsimp only [joinStudB, Option.getD_some]
    rw [ht1]
    simp only [Bool.true_eq_false, false_or, reduceIte]
    rw [if_neg hn0, hvalb]
    simp only [reduceIte]
  · dsimp only [joinProfA, Option.getD_some]
    rw [ht1, hta]
    simp only [Bool.true_eq_false, or_self, if_false, reduceIte]
    rw [if_neg hname, if_pos hbad]
  · have hst := joinProfA_create_state now sid n kg stA hn hl1 hl2 hkg hgl1 hgl2 habsentg
    rw [hst]
    dsimp only
    rw [mapGet_mapSet_self]
  · dsimp only [joinStudA, Option.getD_some]
    rw [ht1, hts]
    simp only [Bool.true_eq_false, or_self, if_false, reduceIte]
    rw [if_neg hname, habsents]

/-- Witness for the amended C8: key `"ab*"` is rejected by both robust
joins; in the simple variant the 2-character key `"xy"` is rejected for
length, the non-alphanumeric 3-character key `"ab*"` is accepted and the
room `AB*` is created, and a student join with an absent weird key gets
`ROOM_NOT_FOUND`, not a format error. -/
theorem c8_amended_witness :
    validateRoomKey (some "ab*") = false ∧
    joinProfB 0 "KEYGEN" "P0001" ⟨some "ab*", some "Alice", true⟩ ⟨[], [], [], []⟩ =
      (⟨[], [], [], []⟩, [⟨.toSender, "room-error",
        .roomError "INVALID_ROOM_KEY"
          "Invalid room key. Must be 3-20 alphanumeric characters."⟩]) ∧
    joinStudB 0 "S0001" ⟨some "ab*", some "Bob"⟩ ⟨[], [], [], []⟩ =
      (⟨[], [], [], []⟩, [⟨.toSender, "room-error",
        .roomError "INVALID_ROOM_KEY" "Invalid room key format"⟩]) ∧
    joinProfA 0 "P0001" ⟨some "Alice", some "xy", true⟩ ⟨[], [], []⟩ =
      (⟨[], [], []⟩, [⟨.toSender, "join-attempt-received", .ack⟩,
             ⟨.toSender, "room-error",
               .roomError "INVALID_ROOM_KEY" "Room key must be 3-20 characters"⟩]) ∧
    mapGet "AB*" (joinProfA 0 "P0001" ⟨some "Alice", some "ab*", true⟩ ⟨[], [], []⟩).1.rooms =
      some ⟨some "P0001", [], [], 1, 0, "Alice"⟩ ∧
    joinStudA 0 "S0001" ⟨some "Bob", some "zz*"⟩ ⟨[], [], []⟩ =
      (⟨[], [], []⟩, [⟨.toSender, "join-attempt-received", .ack⟩,
             ⟨.toSender, "room-error",
               .roomError "ROOM_NOT_FOUND" "Room does not exist"⟩]) := by
  have h1 := c8_amended 0 "KEYGEN" "P0001" "Alice" "ab*" "xy" "ab*" "zz*"
    ⟨[], [], []⟩ ⟨[], [], [], []⟩
    (by decide) (by decide) (by decide) (by decide) (by decide) (by decide)
    (by decide) (by decide) (by decide) (by decide) (by decide) (by decide)
    (by decide)
  have h2 := c8_amended 0 "KEYGEN" "S0001" "Bob" "ab*" "xy" "ab*" "zz*"
    ⟨[], [], []⟩ ⟨[], [], [], []⟩
    (by decide) (by decide) (by decide) (by decide) (by decide) (by decide)
    (by decide) (by decide) (by decide) (by decide) (by decide) (by decide)
    (by decide)
  exact ⟨by decide, h1.1, h2.2.1, h1.2.2.1, by simpa using h1.2.2.2.1, h2.2.2.2.2⟩
